import Mathlib

/-
Verification development for the geographic RAG system.

Shallow embedding conventions:
- JavaScript `number` (IEEE double) is idealized as the real numbers `ℝ`
  in the geometric / vector code, and as the rationals `ℚ` in the query
  parser (whose arithmetic is purely rational).
- `Map<string, V>` is modeled as an insertion-ordered association list
  `List (String × V)` with overwrite-on-set, matching JS `Map.set`.
- `Set<string>` is modeled as a duplicate-free `List String` with
  append-if-absent, matching JS `Set.add` iteration order.
- Grid keys `"x,y"` (built from integers via template strings) are modeled
  as pairs `ℤ × ℤ`; the string encoding is injective on such pairs.
- Fallible code (a `throw`) is modeled with `Except String`.
- Host-environment primitives that are not part of the repository
  (`Date` parsing / arithmetic, `Number.prototype.toFixed`) are taken as
  explicit function parameters.
-/

namespace GeoRAG

open Classical

/-! Association-list model of JS `Map` (insertion ordered, set overwrites). -/

def aget {κ β : Type} [DecidableEq κ] : List (κ × β) → κ → Option β
  | [], _ => none
  | (a, b) :: t, k => if a = k then some b else aget t k

def aset {κ β : Type} [DecidableEq κ] : List (κ × β) → κ → β → List (κ × β)
  | [], k, v => [(k, v)]
  | (a, b) :: t, k, v => if a = k then (k, v) :: t else (a, b) :: aset t k v

def agetD {κ β : Type} [DecidableEq κ] (m : List (κ × β)) (k : κ) (d : β) : β :=
  (aget m k).getD d

def akeys {κ β : Type} (m : List (κ × β)) : List κ := m.map Prod.fst

theorem aget_aset_self {κ β : Type} [DecidableEq κ] (m : List (κ × β)) (k : κ) (v : β) :
    aget (aset m k v) k = some v := by
  induction m with
  | nil => simp [aget, aset]
  | cons hd t ih =>
    obtain ⟨a, b⟩ := hd
    by_cases h : a = k
    · simp [aget, aset, h]
    · simp [aget, aset, h, ih]

theorem aget_aset_ne {κ β : Type} [DecidableEq κ] (m : List (κ × β)) (k k' : κ) (v : β)
    (h : k ≠ k') : aget (aset m k v) k' = aget m k' := by
  induction m with
  | nil => simp [aget, aset, h]
  | cons hd t ih =>
    obtain ⟨a, b⟩ := hd
    by_cases ha : a = k
    · subst ha
      simp [aget, aset, h]
    · by_cases ha' : a = k'
      · subst ha'
        simp [aget, aset, ha, Ne.symm h]
      · simp [aget, aset, ha, ha', ih]

theorem aset_aset_self {κ β : Type} [DecidableEq κ] (m : List (κ × β)) (k : κ) (v w : β) :
    aset (aset m k v) k w = aset m k w := by
  induction m with
  | nil => simp [aset]
  | cons hd t ih =>
    obtain ⟨a, b⟩ := hd
    by_cases h : a = k
    · simp [aset, h]
    · simp [aset, h, ih]

theorem akeys_aset {κ β : Type} [DecidableEq κ] (m : List (κ × β)) (k : κ) (v w : β) :
    akeys (aset (aset m k v) k w) = akeys (aset m k v) := by
  induction m with
  | nil => simp [aset, akeys]
  | cons hd t ih =>
    obtain ⟨a, b⟩ := hd
    by_cases h : a = k
    · simp [aset, akeys, h]
    · simpa [aset, akeys, h] using ih

/-! Model of JS `Set<string>` as an insertion-ordered duplicate-free list. -/

def setAdd {α : Type} [DecidableEq α] (l : List α) (x : α) : List α :=
  if x ∈ l then l else l ++ [x]

def setFromListAux {α : Type} [DecidableEq α] (acc : List α) : List α → List α
  | [] => acc
  | x :: xs => setFromListAux (setAdd acc x) xs

def setFromList {α : Type} [DecidableEq α] (l : List α) : List α :=
  setFromListAux [] l

theorem mem_setFromListAux {α : Type} [DecidableEq α] (x : α) (xs : List α) :
    ∀ acc, x ∈ setFromListAux acc xs ↔ x ∈ acc ∨ x ∈ xs := by
  induction xs with
  | nil => intro acc; simp [setFromListAux]
  | cons y ys ih =>
    intro acc
    rw [setFromListAux, ih]
    unfold setAdd
    by_cases hy : y ∈ acc
    · simp only [if_pos hy, List.mem_cons]
      constructor
      · rintro (h | h)
        · exact Or.inl h
        · exact Or.inr (Or.inr h)
      · rintro (h | h | h)
        · exact Or.inl h
        · exact Or.inl (h ▸ hy)
        · exact Or.inr h
    · simp only [if_neg hy, List.mem_append, List.mem_singleton, List.mem_cons]
      tauto

theorem mem_setFromList {α : Type} [DecidableEq α] (x : α) (l : List α) :
    x ∈ setFromList l ↔ x ∈ l := by
  rw [setFromList, mem_setFromListAux]
  simp

/-! Integer ranges, modeling `for (let i = a; i <= b; i++)`. -/

def intRange (a b : ℤ) : List ℤ :=
  (List.range (b + 1 - a).toNat).map (fun n : ℕ => a + (n : ℤ))

theorem mem_intRange {a b z : ℤ} : z ∈ intRange a b ↔ a ≤ z ∧ z ≤ b := by
  unfold intRange
  constructor
  · intro h
    simp only [List.mem_map, List.mem_range] at h
    obtain ⟨n, hn, rfl⟩ := h
    omega
  · intro h
    simp only [List.mem_map, List.mem_range]
    exact ⟨(z - a).toNat, by omega, by omega⟩

/-! Embedding of src/lib/spatial/utils.ts -/

structure Coordinates where
  latitude : ℝ
  longitude : ℝ

structure BoundingBox where
  north : ℝ
  south : ℝ
  east : ℝ
  west : ℝ

noncomputable def toRadians (degrees : ℝ) : ℝ :=
  degrees * (Real.pi / 180)

/-- Model of JS `Math.atan2(y, x)` (standard piecewise definition). -/
noncomputable def atan2 (y x : ℝ) : ℝ :=
  if 0 < x then Real.arctan (y / x)
  else if x < 0 ∧ 0 ≤ y then Real.arctan (y / x) + Real.pi
  else if x < 0 ∧ y < 0 then Real.arctan (y / x) - Real.pi
  else if x = 0 ∧ 0 < y then Real.pi / 2
  else if x = 0 ∧ y < 0 then -(Real.pi / 2)
  else 0

/-- Haversine distance, embedding `calculateDistance` of src/lib/spatial/utils.ts. -/
noncomputable def calculateDistance (coord1 coord2 : Coordinates) : ℝ :=
  let R : ℝ := 6371
  let dLat := toRadians (coord2.latitude - coord1.latitude)
  let dLon := toRadians (coord2.longitude - coord1.longitude)
  let a := Real.sin (dLat / 2) * Real.sin (dLat / 2) +
    Real.cos (toRadians coord1.latitude) * Real.cos (toRadians coord2.latitude) *
      Real.sin (dLon / 2) * Real.sin (dLon / 2)
  let c := 2 * atan2 (Real.sqrt a) (Real.sqrt (1 - a))
  R * c

noncomputable def isPointInBounds (point : Coordinates) (bounds : BoundingBox) : Bool :=
  decide (bounds.south ≤ point.latitude ∧ point.latitude ≤ bounds.north ∧
    bounds.west ≤ point.longitude ∧ point.longitude ≤ bounds.east)

noncomputable def createBoundingBox (center : Coordinates) (radiusKm : ℝ) : BoundingBox :=
  let latDelta := radiusKm / 111
  let lonDelta := radiusKm / (111 * Real.cos (toRadians center.latitude))
  { north := center.latitude + latDelta
    south := center.latitude - latDelta
    east := center.longitude + lonDelta
    west := center.longitude - lonDelta }

/-! Embedding of src/lib/spatial/spatial-index.ts.
The TypeScript `GeographicFeature` discriminates geometry by its `type`
field and casts `coordinates` accordingly; we merge the two fields into one
inductive.  `properties`/`metadata` payload fields are never read by the
index and are omitted. -/

inductive Geometry where
  | point (coords : Coordinates)
  | linestring (coords : List Coordinates)
  | polygon (rings : List (List Coordinates))

structure GeographicFeature where
  id : String
  name : String
  geometry : Geometry

structure SpatialIndexState where
  features : List (String × GeographicFeature)
  spatialGrid : List ((ℤ × ℤ) × List String)

namespace QuadTreeSpatialIndex

def gridSize : ℝ := 0.01

def emptyIndex : SpatialIndexState := ⟨[], []⟩

/-- Bounding extent of a feature.  The source folds with `±Infinity`
initial accumulators; for the empty coordinate list this produces an
inverted infinite box that registers no grid cells and intersects nothing,
which we model as `none`. -/
def getFeatureBounds (feature : GeographicFeature) : Option BoundingBox :=
  let fold : Coordinates → List Coordinates → BoundingBox := fun c cs =>
    cs.foldl
      (fun b coord =>
        { north := max b.north coord.latitude
          south := min b.south coord.latitude
          east := max b.east coord.longitude
          west := min b.west coord.longitude })
      { north := c.latitude, south := c.latitude, east := c.longitude, west := c.longitude }
  match feature.geometry with
  | .point c => some (fold c [])
  | .linestring cs =>
    match cs with
    | [] => none
    | c :: rest => some (fold c rest)
  | .polygon rings =>
    match rings.flatten with
    | [] => none
    | c :: rest => some (fold c rest)

noncomputable def getGridKeys (feature : GeographicFeature) : List (ℤ × ℤ) :=
  match feature.geometry with
  | .point coords => [(⌊coords.longitude / gridSize⌋, ⌊coords.latitude / gridSize⌋)]
  | _ =>
    match getFeatureBounds feature with
    | none => []
    | some bounds =>
      (intRange ⌊bounds.west / gridSize⌋ ⌈bounds.east / gridSize⌉).flatMap
        (fun x => (intRange ⌊bounds.south / gridSize⌋ ⌈bounds.north / gridSize⌉).map
          (fun y => (x, y)))

/-- Embedding of `QuadTreeSpatialIndex.insert`: stores the feature under its
id (overwrite) and registers the id in every grid cell the feature touches.
Note: the source never removes previously registered grid keys. -/
noncomputable def insert (idx : SpatialIndexState) (feature : GeographicFeature) :
    SpatialIndexState :=
  { features := aset idx.features feature.id feature
    spatialGrid :=
      (getGridKeys feature).foldl
        (fun g key => aset g key (setAdd (agetD g key []) feature.id))
        idx.spatialGrid }

noncomputable def featureIntersectsBounds (feature : GeographicFeature)
    (bounds : BoundingBox) : Bool :=
  match feature.geometry with
  | .point coords => isPointInBounds coords bounds
  | _ =>
    match getFeatureBounds feature with
    | none => false
    | some featureBounds =>
      ! (decide (featureBounds.east < bounds.west ∨ bounds.east < featureBounds.west ∨
          featureBounds.north < bounds.south ∨ bounds.north < featureBounds.south))

/-- Embedding of `QuadTreeSpatialIndex.query`: gathers candidate ids from
every grid cell in the rectangle covering `bounds` (a `Set`, hence
deduplicated in first-visit order) and filters them by the exact test. -/
noncomputable def query (idx : SpatialIndexState) (bounds : BoundingBox) :
    List GeographicFeature :=
  let minGridX := ⌊bounds.west / gridSize⌋
  let maxGridX := ⌈bounds.east / gridSize⌉
  let minGridY := ⌊bounds.south / gridSize⌋
  let maxGridY := ⌈bounds.north / gridSize⌉
  let candidateIds := setFromList
    ((intRange minGridX maxGridX).flatMap
      (fun x => (intRange minGridY maxGridY).flatMap
        (fun y => agetD idx.spatialGrid (x, y) [])))
  (candidateIds.filterMap (fun id => aget idx.features id)).filter
    (fun feature => featureIntersectsBounds feature bounds)

noncomputable def getFeatureCenter (feature : GeographicFeature) : Coordinates :=
  match feature.geometry with
  | .point coords => coords
  | _ =>
    match getFeatureBounds feature with
    | some bounds =>
      ⟨(bounds.north + bounds.south) / 2, (bounds.east + bounds.west) / 2⟩
    | none => ⟨0, 0⟩

noncomputable def queryRadius (idx : SpatialIndexState) (center : Coordinates)
    (radiusKm : ℝ) : List GeographicFeature :=
  let bounds := createBoundingBox center radiusKm
  (query idx bounds).filter
    (fun feature => decide (calculateDistance center (getFeatureCenter feature) ≤ radiusKm))

end QuadTreeSpatialIndex

namespace QuadTreeSpatialIndex

/-! Claim C1: re-insertion under an existing id with changed geometry. -/

def c1FeatureOld : GeographicFeature :=
  { id := "f1", name := "old geometry", geometry := .point ⟨0, 0⟩ }

def c1FeatureNew : GeographicFeature :=
  { id := "f1", name := "new geometry", geometry := .point ⟨10, 10⟩ }

noncomputable def c1Index : SpatialIndexState :=
  insert (insert emptyIndex c1FeatureOld) c1FeatureNew

theorem c1_floor_zero : ⌊(0 : ℝ) / gridSize⌋ = 0 := by
  have h : (0 : ℝ) / gridSize = ((0 : ℤ) : ℝ) := by
    norm_num [gridSize]
  rw [h, Int.floor_intCast]

theorem c1_floor_ten : ⌊(10 : ℝ) / gridSize⌋ = 1000 := by
  have h : (10 : ℝ) / gridSize = ((1000 : ℤ) : ℝ) := by
    norm_num [gridSize]
  rw [h, Int.floor_intCast]

/-- C1: `insert` under an already-present id overwrites the stored feature
but does **not** refresh grid membership: after re-inserting id `f1` with
geometry moved from `(0,0)` to `(10,10)`, the new geometry touches only
cell `(1000, 1000)`, yet the bucket of cell `(0, 0)` — a cell not touched
by the new geometry — still contains `f1`.  This contradicts the claim
(and the specification), exhibiting the stale bucket entry the spec warns
about. -/
theorem c1_stale_bucket_after_reinsert :
    aget c1Index.features c1FeatureNew.id = some c1FeatureNew ∧
    getGridKeys c1FeatureNew = [((1000 : ℤ), (1000 : ℤ))] ∧
    ((0 : ℤ), (0 : ℤ)) ∉ getGridKeys c1FeatureNew ∧
    c1FeatureNew.id ∈ agetD c1Index.spatialGrid ((0 : ℤ), (0 : ℤ)) [] := by
  have hkeysOld : getGridKeys c1FeatureOld = [((0 : ℤ), (0 : ℤ))] := by
    simp [getGridKeys, c1FeatureOld, c1_floor_zero]
  have hkeysNew : getGridKeys c1FeatureNew = [((1000 : ℤ), (1000 : ℤ))] := by
    simp [getGridKeys, c1FeatureNew, c1_floor_ten]
  have hIdx : c1Index =
      { features := [("f1", c1FeatureNew)]
        spatialGrid := [(((0 : ℤ), (0 : ℤ)), ["f1"]),
          (((1000 : ℤ), (1000 : ℤ)), ["f1"])] } := by
    rw [c1Index]
    rw [insert, insert, hkeysOld, hkeysNew]
    simp [emptyIndex, c1FeatureOld, c1FeatureNew, aset, agetD, aget, setAdd,
      Prod.ext_iff]
  refine ⟨?_, hkeysNew, ?_, ?_⟩
  · rw [hIdx]
    simp [aget, c1FeatureNew]
  · rw [hkeysNew]
    simp [Prod.ext_iff]
  · rw [hIdx]
    simp [agetD, aget, c1FeatureNew]

/-! Claim C3: `queryRadius` soundness and (non-)completeness. -/

def c3Feature : GeographicFeature :=
  { id := "p1", name := "west of the antimeridian", geometry := .point ⟨0, -179.9⟩ }

noncomputable def c3Index : SpatialIndexState := insert emptyIndex c3Feature

def c3Center : Coordinates := ⟨0, 179.9⟩

theorem c3_floor_cell : ⌊(-179.9 : ℝ) / gridSize⌋ = -17990 := by
  have h : (-179.9 : ℝ) / gridSize = ((-17990 : ℤ) : ℝ) := by
    norm_num [gridSize]
  rw [h, Int.floor_intCast]

theorem c3_grid : c3Index.spatialGrid = [(((-17990 : ℤ), (0 : ℤ)), ["p1"])] := by
  have hkeys : getGridKeys c3Feature = [((-17990 : ℤ), (0 : ℤ))] := by
    simp [getGridKeys, c3Feature, c3_floor_cell, c1_floor_zero]
  rw [c3Index, insert, hkeys]
  simp [emptyIndex, c3Feature, aset, agetD, aget, setAdd]

theorem c3_cos_center_lat : Real.cos (toRadians c3Center.latitude) = 1 := by
  simp [toRadians, c3Center]

/-- Haversine distance from the query center `(0, 179.9)` to the point
`(0, -179.9)`: the longitude difference is `-359.8°`, whose half-angle sine
has the same square as `sin (π/1800)`, so the distance is `6371·π/900 ≈
22.24 km`, well within the 50 km radius. -/
theorem c3_distance_le :
    calculateDistance c3Center (getFeatureCenter c3Feature) ≤ 50 := by
  have hc : getFeatureCenter c3Feature = ⟨0, -179.9⟩ := by
    simp [getFeatureCenter, c3Feature]
  rw [hc]
  simp only [calculateDistance]
  have hθpos : (0 : ℝ) < Real.pi / 1800 := by positivity
  have hθlt : Real.pi / 1800 < Real.pi / 2 :=
    div_lt_div_of_pos_left Real.pi_pos (by norm_num) (by norm_num)
  have hdLat : ((Coordinates.mk 0 (-179.9)).latitude - c3Center.latitude) = 0 := by
    simp [c3Center]
  have hsinLat :
      Real.sin (toRadians ((Coordinates.mk 0 (-179.9)).latitude - c3Center.latitude) / 2)
        = 0 := by
    rw [hdLat]
    simp [toRadians]
  have hhalf :
      toRadians ((Coordinates.mk 0 (-179.9)).longitude - c3Center.longitude) / 2
        = -(Real.pi - Real.pi / 1800) := by
    show (-179.9 - 179.9 : ℝ) * (Real.pi / 180) / 2 = -(Real.pi - Real.pi / 1800)
    ring_nf
  have hsinLon :
      Real.sin (toRadians ((Coordinates.mk 0 (-179.9)).longitude - c3Center.longitude) / 2)
        = -Real.sin (Real.pi / 1800) := by
    rw [hhalf, Real.sin_neg, Real.sin_pi_sub]
  have hcosC : Real.cos (toRadians c3Center.latitude) = 1 := c3_cos_center_lat
  have hcosP : Real.cos (toRadians (Coordinates.mk 0 (-179.9)).latitude) = 1 := by
    simp [toRadians]
  rw [hsinLat, hsinLon, hcosC, hcosP]
  have hsin_nonneg : 0 ≤ Real.sin (Real.pi / 1800) :=
    Real.sin_nonneg_of_nonneg_of_le_pi (le_of_lt hθpos)
      (by linarith [Real.pi_pos])
  have hcos_pos : 0 < Real.cos (Real.pi / 1800) :=
    Real.cos_pos_of_mem_Ioo ⟨by linarith [Real.pi_pos], hθlt⟩
  have ha : (0 : ℝ) * 0 + 1 * 1 * -Real.sin (Real.pi / 1800) * -Real.sin (Real.pi / 1800)
      = Real.sin (Real.pi / 1800) * Real.sin (Real.pi / 1800) := by ring
  rw [ha]
  have hsqrt_a : Real.sqrt (Real.sin (Real.pi / 1800) * Real.sin (Real.pi / 1800))
      = Real.sin (Real.pi / 1800) := Real.sqrt_mul_self hsin_nonneg
  have hone_sub : (1 : ℝ) - Real.sin (Real.pi / 1800) * Real.sin (Real.pi / 1800)
      = Real.cos (Real.pi / 1800) * Real.cos (Real.pi / 1800) := by
    have h := Real.sin_sq_add_cos_sq (Real.pi / 1800)
    nlinarith [h]
  have hsqrt_b : Real.sqrt (1 - Real.sin (Real.pi / 1800) * Real.sin (Real.pi / 1800))
      = Real.cos (Real.pi / 1800) := by
    rw [hone_sub]
    exact Real.sqrt_mul_self (le_of_lt hcos_pos)
  rw [hsqrt_a, hsqrt_b]
  have hatan : atan2 (Real.sin (Real.pi / 1800)) (Real.cos (Real.pi / 1800))
      = Real.pi / 1800 := by
    rw [atan2, if_pos hcos_pos, ← Real.tan_eq_sin_div_cos]
    exact Real.arctan_tan (by linarith [Real.pi_pos]) hθlt
  rw [hatan]
  linarith [Real.pi_le_four]

theorem c3_minGridX_large :
    (17900 : ℤ) ≤ ⌊(createBoundingBox c3Center 50).west / gridSize⌋ := by
  have hwest : (createBoundingBox c3Center 50).west = 179.9 - 50 / 111 := by
    simp [createBoundingBox, c3Center, toRadians]
  rw [hwest, Int.le_floor]
  have hg : gridSize = (0.01 : ℝ) := rfl
  rw [hg]
  push_cast
  norm_num

/-- C3 counterexample: the claim "queryRadius includes every inserted point
within haversine distance R of the center" is false.  The point
`(0, -179.9)` is about 22.24 km from the center `(0, 179.9)` (the haversine
formula wraps around the antimeridian), yet the approximate bounding box
`[179.45°, 180.35°]` derived by `createBoundingBox` does not wrap, so the
point is outside every scanned grid cell and `queryRadius` misses it. -/
theorem c3_counterexample :
    calculateDistance c3Center (getFeatureCenter c3Feature) ≤ 50 ∧
    c3Feature ∉ queryRadius c3Index c3Center 50 := by
  refine ⟨c3_distance_le, ?_⟩
  intro hmem
  simp only [queryRadius] at hmem
  have hq : c3Feature ∈ query c3Index (createBoundingBox c3Center 50) :=
    (List.mem_filter.1 hmem).1
  simp only [query] at hq
  have hq2 := (List.mem_filter.1 hq).1
  obtain ⟨id, hidset, _⟩ := List.mem_filterMap.1 hq2
  rw [mem_setFromList] at hidset
  obtain ⟨x, hx, hid2⟩ := List.mem_flatMap.1 hidset
  obtain ⟨y, hy, hid3⟩ := List.mem_flatMap.1 hid2
  rw [c3_grid] at hid3
  by_cases hxy : ((-17990 : ℤ), (0 : ℤ)) = (x, y)
  · have hxval : x = -17990 := by
      have := congrArg Prod.fst hxy
      simpa using this.symm
    have hxlo := (mem_intRange.1 hx).1
    have := c3_minGridX_large
    omega
  · simp [agetD, aget, hxy] at hid3

theorem gridSize_pos : (0 : ℝ) < gridSize := by
  have hg : gridSize = (0.01 : ℝ) := rfl
  rw [hg]
  norm_num

/-- C3 amended: `queryRadius` never returns a feature whose haversine
distance from the center exceeds the radius (no false positives — the
final filter applies the exact test), and it does return every stored
point feature within the radius **whose coordinates lie inside the
approximate bounding box** derived from the center and radius (its
registered grid cell is then among the scanned cells).  Completeness
holds only relative to that box, not for all points within the radius. -/
theorem c3_queryRadius_amended :
    (∀ (idx : SpatialIndexState) (center : Coordinates) (radiusKm : ℝ)
        (f : GeographicFeature), f ∈ queryRadius idx center radiusKm →
        calculateDistance center (getFeatureCenter f) ≤ radiusKm) ∧
    (∀ (idx : SpatialIndexState) (center : Coordinates) (radiusKm : ℝ)
        (f : GeographicFeature) (coords : Coordinates),
        f.geometry = .point coords →
        aget idx.features f.id = some f →
        f.id ∈ agetD idx.spatialGrid
          (⌊coords.longitude / gridSize⌋, ⌊coords.latitude / gridSize⌋) [] →
        isPointInBounds coords (createBoundingBox center radiusKm) = true →
        calculateDistance center coords ≤ radiusKm →
        f ∈ queryRadius idx center radiusKm) := by
  constructor
  · intro idx center radiusKm f hmem
    simp only [queryRadius] at hmem
    have hd := (List.mem_filter.1 hmem).2
    exact of_decide_eq_true hd
  · intro idx center radiusKm f coords hgeom hget hbucket hbox hdist
    have hbox' := of_decide_eq_true (by simpa [isPointInBounds] using hbox)
    obtain ⟨hs, hn, hw, he⟩ := hbox'
    have hcenter : getFeatureCenter f = coords := by
      simp [getFeatureCenter, hgeom]
    simp only [queryRadius]
    refine List.mem_filter.2 ⟨?_, ?_⟩
    · simp only [query]
      refine List.mem_filter.2 ⟨?_, ?_⟩
      · refine List.mem_filterMap.2 ⟨f.id, ?_, hget⟩
        rw [mem_setFromList]
        refine List.mem_flatMap.2 ⟨⌊coords.longitude / gridSize⌋, ?_, ?_⟩
        · rw [mem_intRange]
          constructor
          · exact Int.floor_le_floor ((div_le_div_iff_of_pos_right gridSize_pos).2 hw)
          · exact le_trans (Int.floor_le_floor ((div_le_div_iff_of_pos_right gridSize_pos).2 he))
              (Int.floor_le_ceil _)
        · refine List.mem_flatMap.2 ⟨⌊coords.latitude / gridSize⌋, ?_, hbucket⟩
          rw [mem_intRange]
          constructor
          · exact Int.floor_le_floor ((div_le_div_iff_of_pos_right gridSize_pos).2 hs)
          · exact le_trans (Int.floor_le_floor ((div_le_div_iff_of_pos_right gridSize_pos).2 hn))
              (Int.floor_le_ceil _)
      · simp [featureIntersectsBounds, hgeom, hbox]
    · rw [hcenter]
      exact decide_eq_true hdist

/-! Witness instantiation for the amended C3 theorem. -/

def c3wFeature : GeographicFeature :=
  { id := "p", name := "origin point", geometry := .point ⟨0, 0⟩ }

noncomputable def c3wIndex : SpatialIndexState := insert emptyIndex c3wFeature

theorem c3w_distance_zero : calculateDistance ⟨0, 0⟩ (⟨0, 0⟩ : Coordinates) ≤ 50 := by
  simp only [calculateDistance]
  have h0 : toRadians ((0 : ℝ) - 0) = 0 := by
    simp [toRadians]
  have h0' : toRadians (0 : ℝ) = 0 := by
    simp [toRadians]
  rw [h0, h0']
  simp only [Real.sin_zero, Real.cos_zero, zero_div]
  have ha : (0 : ℝ) * 0 + 1 * 1 * 0 * 0 = 0 := by ring
  rw [ha]
  rw [Real.sqrt_zero]
  have hb : (1 : ℝ) - 0 = 1 := by ring
  rw [hb, Real.sqrt_one]
  rw [atan2, if_pos (by norm_num : (0 : ℝ) < 1)]
  simp [Real.arctan_zero]

/-- C3 witness: the amended theorem applied to a store holding the single
point `(0,0)` queried from `(0,0)` with radius 50 km. -/
theorem c3_queryRadius_amended_witness :
    c3wFeature ∈ queryRadius c3wIndex ⟨0, 0⟩ 50 ∧
    calculateDistance ⟨0, 0⟩ (getFeatureCenter c3wFeature) ≤ 50 := by
  have hget : aget c3wIndex.features c3wFeature.id = some c3wFeature := by
    simp [c3wIndex, insert, emptyIndex, aset, aget, c3wFeature]
  have hkeys : getGridKeys c3wFeature = [((0 : ℤ), (0 : ℤ))] := by
    simp [getGridKeys, c3wFeature, c1_floor_zero]
  have hbucket : c3wFeature.id ∈ agetD c3wIndex.spatialGrid
      (⌊(0 : ℝ) / gridSize⌋, ⌊(0 : ℝ) / gridSize⌋) [] := by
    rw [c3wIndex, insert, hkeys]
    simp [emptyIndex, agetD, aget, aset, setAdd, c3wFeature, c1_floor_zero]
  have hbox : isPointInBounds ⟨0, 0⟩ (createBoundingBox ⟨0, 0⟩ 50) = true := by
    simp only [isPointInBounds, createBoundingBox, toRadians]
    rw [decide_eq_true_iff]
    norm_num
  have hmem := c3_queryRadius_amended.2 c3wIndex ⟨0, 0⟩ 50 c3wFeature ⟨0, 0⟩
    rfl hget hbucket hbox c3w_distance_zero
  exact ⟨hmem, c3_queryRadius_amended.1 c3wIndex ⟨0, 0⟩ 50 c3wFeature hmem⟩

end QuadTreeSpatialIndex

/-! Embedding of the Vector Store (src/unnamed/part_001,
`GeographicVectorStore`) and its document model (src/lib/rag/types.ts).
Unused payload fields (`bounds`, `source`) are omitted. -/

inductive DocType where
  | feature | analysis | report | observation
deriving DecidableEq

structure DocMetadata where
  type : DocType
  location : Option Coordinates
  timestamp : String
  tags : List String
  confidence : Option ℝ

structure SpatialContextInfo where
  nearbyFeatures : List String
  region : String
  climate : String
  elevation : Option ℝ

structure GeographicDocument where
  id : String
  content : String
  metadata : DocMetadata
  embedding : Option (List ℝ)
  spatialContext : Option SpatialContextInfo

structure RAGQueryFilters where
  type : Option (List DocType)
  dateRange : Option (String × String)
  tags : Option (List String)
  minConfidence : Option ℝ

structure RAGQuery where
  text : String
  location : Option Coordinates
  radius : Option ℝ
  filters : Option RAGQueryFilters
  spatialWeight : Option ℝ

structure VectorSearchResult where
  document : GeographicDocument
  similarity : ℝ
  spatialRelevance : ℝ
  combinedScore : ℝ

structure VectorStoreOptions where
  dimensions : ℕ
  spatialWeight : ℝ
  maxResults : ℕ

structure VectorStoreState where
  documents : List (String × GeographicDocument)
  embeddings : List (String × List ℝ)
  spatialIndex : List ((ℤ × ℤ) × List String)

/-- Model of the JS idiom `x || d` on an optional number: `undefined` and
`0` (both falsy) select the default. -/
noncomputable def jsOr (x : Option ℝ) (d : ℝ) : ℝ :=
  match x with
  | some v => if v = 0 then d else v
  | none => d

namespace GeographicVectorStore

def storeGridSize : ℝ := 0.1

def emptyStore : VectorStoreState := ⟨[], [], []⟩

/-- Grid key `"gridX,gridY"` used by `addToSpatialIndex` /
`removeFromSpatialIndex`. -/
noncomputable def cellKey (location : Coordinates) : ℤ × ℤ :=
  (⌊location.longitude / storeGridSize⌋, ⌊location.latitude / storeGridSize⌋)

/-- Embedding of `addToSpatialIndex`: pushes the doc id onto the cell's
array (duplicates are possible — `push`, not a set). -/
noncomputable def addToSpatialIndex (grid : List ((ℤ × ℤ) × List String))
    (docId : String) (location : Coordinates) : List ((ℤ × ℤ) × List String) :=
  aset grid (cellKey location) (agetD grid (cellKey location) [] ++ [docId])

/-- Embedding of `GeographicVectorStore.addDocument`. -/
noncomputable def addDocument (st : VectorStoreState) (document : GeographicDocument) :
    VectorStoreState :=
  { documents := aset st.documents document.id document
    embeddings :=
      match document.embedding with
      | some e => aset st.embeddings document.id e
      | none => st.embeddings
    spatialIndex :=
      match document.metadata.location with
      | some loc => addToSpatialIndex st.spatialIndex document.id loc
      | none => st.spatialIndex }

/-- Embedding of `addDocuments` (each `addDocument` runs synchronously, so
`Promise.all` is a left fold in array order). -/
noncomputable def addDocuments (st : VectorStoreState)
    (documents : List GeographicDocument) : VectorStoreState :=
  documents.foldl addDocument st

/-- Loop body of `cosineSimilarity`: with the length guard passed, the
accumulated `dotProduct` is the pointwise sum below (the source adds
left-to-right; real addition is associative and commutative). -/
def dotProduct : List ℝ → List ℝ → ℝ
  | x :: xs, y :: ys => x * y + dotProduct xs ys
  | _, _ => 0

/-- Embedding of `cosineSimilarity`: throws on a length mismatch, otherwise
returns `dot / (sqrt normA * sqrt normB)`. -/
noncomputable def cosineSimilarity (a b : List ℝ) : Except String ℝ :=
  if a.length ≠ b.length then
    .error ("Vectors must have the same length")
  else
    .ok (dotProduct a b / (Real.sqrt (dotProduct a a) * Real.sqrt (dotProduct b b)))

/-- Embedding of `calculateSpatialRelevance`. -/
noncomputable def calculateSpatialRelevance (document : GeographicDocument)
    (query : RAGQuery) : ℝ :=
  match query.location, document.metadata.location with
  | some ql, some dl =>
    let distance := calculateDistance ql dl
    let maxDistance := jsOr query.radius 100
    Real.exp (-distance / (maxDistance / 3))
  | _, _ => 0.5

/-- Embedding of `combineScores`. -/
noncomputable def combineScores (similarity spatialRelevance spatialWeight : ℝ) : ℝ :=
  (1 - spatialWeight) * similarity + spatialWeight * spatialRelevance

/-- Embedding of `getSpatialCandidates`. -/
noncomputable def getSpatialCandidates (st : VectorStoreState) (location : Coordinates)
    (radiusKm : ℝ) : List String :=
  let latRange := radiusKm / 111
  let lonRange := radiusKm / (111 * Real.cos (location.latitude * Real.pi / 180))
  let minGridX := ⌊(location.longitude - lonRange) / storeGridSize⌋
  let maxGridX := ⌈(location.longitude + lonRange) / storeGridSize⌉
  let minGridY := ⌊(location.latitude - latRange) / storeGridSize⌋
  let maxGridY := ⌈(location.latitude + latRange) / storeGridSize⌉
  let candidates := (intRange minGridX maxGridX).flatMap
    (fun x => (intRange minGridY maxGridY).flatMap
      (fun y => agetD st.spatialIndex (x, y) []))
  candidates.filter (fun docId =>
    match aget st.documents docId with
    | some document =>
      match document.metadata.location with
      | some dl => decide (calculateDistance location dl ≤ radiusKm)
      | none => false
    | none => false)

/-- Embedding of the filter predicate inside `getCandidateDocuments`
(an AND of the present filters; `minConfidence` and a stored `confidence`
of `0` are falsy and skip the confidence check). -/
noncomputable def passesFilters (dateVal : String → ℤ) (filters : RAGQueryFilters)
    (document : GeographicDocument) : Bool :=
  (match filters.type with
   | some types => decide (document.metadata.type ∈ types)
   | none => true) &&
  (match filters.dateRange with
   | some range =>
     !(decide (dateVal document.metadata.timestamp < dateVal range.1) ||
       decide (dateVal range.2 < dateVal document.metadata.timestamp))
   | none => true) &&
  (match filters.tags with
   | some tags => decide (∃ t ∈ tags, t ∈ document.metadata.tags)
   | none => true) &&
  (match filters.minConfidence with
   | some mc =>
     if mc = 0 then true
     else
       match document.metadata.confidence with
       | some c => if c = 0 then true else decide (mc ≤ c)
       | none => true
   | none => true)

/-- Embedding of `getCandidateDocuments`. -/
noncomputable def getCandidateDocuments (dateVal : String → ℤ) (st : VectorStoreState)
    (query : RAGQuery) : List String :=
  let candidates :=
    match query.location with
    | none => akeys st.documents
    | some loc =>
      let spatialCandidates := setFromList (getSpatialCandidates st loc (jsOr query.radius 100))
      if spatialCandidates.length = 0 then akeys st.documents else spatialCandidates
  match query.filters with
  | none => candidates
  | some filters =>
    candidates.filter (fun docId =>
      match aget st.documents docId with
      | some document => passesFilters dateVal filters document
      | none => false)

/-- Scoring loop of `search`: a `throw` from `cosineSimilarity` aborts the
whole search; candidates lacking a stored document or embedding are
skipped (`continue`). -/
noncomputable def searchLoop (st : VectorStoreState) (queryEmbedding : List ℝ)
    (query : RAGQuery) (defaultSpatialWeight : ℝ) :
    List String → Except String (List VectorSearchResult)
  | [] => .ok []
  | docId :: rest =>
    match aget st.documents docId, aget st.embeddings docId with
    | some document, some embedding =>
      match cosineSimilarity queryEmbedding embedding with
      | .error e => .error e
      | .ok similarity =>
        match searchLoop st queryEmbedding query defaultSpatialWeight rest with
        | .error e => .error e
        | .ok results =>
          let spatialRelevance := calculateSpatialRelevance document query
          let combinedScore :=
            combineScores similarity spatialRelevance (jsOr query.spatialWeight defaultSpatialWeight)
          .ok ({ document := document, similarity := similarity,
                 spatialRelevance := spatialRelevance, combinedScore := combinedScore } :: results)
    | _, _ => searchLoop st queryEmbedding query defaultSpatialWeight rest

/-- Embedding of `GeographicVectorStore.search`. -/
noncomputable def search (st : VectorStoreState) (options : VectorStoreOptions)
    (dateVal : String → ℤ) (queryEmbedding : List ℝ) (query : RAGQuery) :
    Except String (List VectorSearchResult) :=
  let candidates := getCandidateDocuments dateVal st query
  match searchLoop st queryEmbedding query options.spatialWeight candidates with
  | .error e => .error e
  | .ok results =>
    .ok ((results.mergeSort (fun a b => decide (b.combinedScore ≤ a.combinedScore))).take
      options.maxResults)

/-! Claim C4: idempotence of `addDocument` per id. -/

/-- C4 amended: adding the same document twice overwrites the document and
embedding tables (those components are idempotent), and the whole state is
idempotent when `metadata.location` is unset; but when a location is set,
the second add pushes the id onto its grid-cell bucket again, leaving a
duplicate entry — full-state idempotence fails. -/
theorem c4_addDocument_amended (st : VectorStoreState) (document : GeographicDocument) :
    (addDocument (addDocument st document) document).documents =
      (addDocument st document).documents ∧
    (addDocument (addDocument st document) document).embeddings =
      (addDocument st document).embeddings ∧
    (document.metadata.location = none →
      addDocument (addDocument st document) document = addDocument st document) ∧
    (∀ loc, document.metadata.location = some loc →
      agetD (addDocument (addDocument st document) document).spatialIndex (cellKey loc) [] =
        agetD (addDocument st document).spatialIndex (cellKey loc) [] ++ [document.id]) := by
  refine ⟨?_, ?_, ?_, ?_⟩
  · simp [addDocument, aset_aset_self]
  · cases hemb : document.embedding with
    | none => simp [addDocument, hemb]
    | some e => simp [addDocument, hemb, aset_aset_self]
  · intro hloc
    cases hemb : document.embedding with
    | none => simp [addDocument, hloc, hemb, aset_aset_self]
    | some e => simp [addDocument, hloc, hemb, aset_aset_self]
  · intro loc hloc
    simp only [addDocument, hloc, addToSpatialIndex, agetD]
    rw [aget_aset_self]
    rfl

theorem store_floor_zero : ⌊(0 : ℝ) / storeGridSize⌋ = 0 := by
  have h : (0 : ℝ) / storeGridSize = ((0 : ℤ) : ℝ) := by
    norm_num [storeGridSize]
  rw [h, Int.floor_intCast]

def c4Doc : GeographicDocument :=
  { id := "d1", content := "a located document",
    metadata := { type := .report, location := some ⟨0, 0⟩, timestamp := "2024-01-01",
                  tags := [], confidence := none },
    embedding := none, spatialContext := none }

def c4DocNoLoc : GeographicDocument :=
  { id := "d2", content := "an unlocated document",
    metadata := { type := .report, location := none, timestamp := "2024-01-01",
                  tags := [], confidence := none },
    embedding := none, spatialContext := none }

/-- C4 counterexample: adding the located document `d1` twice does not
leave the store in the same state as adding it once — the grid bucket of
its cell holds `["d1", "d1"]` instead of `["d1"]`. -/
theorem c4_counterexample :
    addDocument (addDocument emptyStore c4Doc) c4Doc ≠ addDocument emptyStore c4Doc := by
  intro h
  have hkey : cellKey ⟨0, 0⟩ = ((0 : ℤ), (0 : ℤ)) := by
    simp [cellKey, store_floor_zero]
  have hone : (addDocument emptyStore c4Doc).spatialIndex =
      [(((0 : ℤ), (0 : ℤ)), ["d1"])] := by
    simp [addDocument, emptyStore, c4Doc, addToSpatialIndex, hkey, aset, agetD, aget]
  have htwo : (addDocument (addDocument emptyStore c4Doc) c4Doc).spatialIndex =
      [(((0 : ℤ), (0 : ℤ)), ["d1", "d1"])] := by
    simp only [addDocument, c4Doc] at hone ⊢
    simp only [addToSpatialIndex, hkey] at hone ⊢
    rw [hone]
    simp [aset, agetD, aget]
  have := congrArg VectorStoreState.spatialIndex h
  rw [hone, htwo] at this
  simp at this

/-- C4 witness: the amended theorem applied to a concrete store — full
idempotence for the unlocated document, and the duplicated bucket entry
for the located one. -/
theorem c4_addDocument_amended_witness :
    (addDocument (addDocument emptyStore c4DocNoLoc) c4DocNoLoc =
      addDocument emptyStore c4DocNoLoc) ∧
    agetD (addDocument (addDocument emptyStore c4Doc) c4Doc).spatialIndex
        (cellKey ⟨0, 0⟩) [] =
      agetD (addDocument emptyStore c4Doc).spatialIndex (cellKey ⟨0, 0⟩) [] ++ [c4Doc.id] :=
  ⟨(c4_addDocument_amended emptyStore c4DocNoLoc).2.2.1 rfl,
   (c4_addDocument_amended emptyStore c4Doc).2.2.2 ⟨0, 0⟩ rfl⟩

/-! Claim C9: symmetry of `cosineSimilarity` and self-similarity 1. -/

theorem dotProduct_comm (a : List ℝ) : ∀ b, dotProduct a b = dotProduct b a := by
  induction a with
  | nil => intro b; cases b <;> simp [dotProduct]
  | cons x xs ih =>
    intro b
    cases b with
    | nil => simp [dotProduct]
    | cons y ys => simp [dotProduct, ih ys]; ring

theorem dotProduct_self_nonneg (a : List ℝ) : 0 ≤ dotProduct a a := by
  induction a with
  | nil => simp [dotProduct]
  | cons x xs ih => simp only [dotProduct]; nlinarith

theorem dotProduct_self_pos (a : List ℝ) (x : ℝ) (hx : x ∈ a) (hx0 : x ≠ 0) :
    0 < dotProduct a a := by
  induction a with
  | nil => cases hx
  | cons y ys ih =>
    rcases List.mem_cons.1 hx with h | h
    · subst h
      have h1 := dotProduct_self_nonneg ys
      have h2 : 0 < x * x := mul_self_pos.mpr hx0
      simp only [dotProduct]
      nlinarith
    · have := ih h
      simp only [dotProduct] at this ⊢
      nlinarith [mul_self_nonneg y]

/-- C9: `cosineSimilarity` is symmetric on equal-length vectors, and a
vector with some nonzero component has self-similarity exactly 1 (over the
real-number idealization of JS doubles). -/
theorem c9_cosine_symm_and_self :
    (∀ a b : List ℝ, a.length = b.length →
      cosineSimilarity a b = cosineSimilarity b a) ∧
    (∀ (a : List ℝ) (x : ℝ), x ∈ a → x ≠ 0 →
      cosineSimilarity a a = .ok 1) := by
  constructor
  · intro a b hlen
    simp [cosineSimilarity, hlen, dotProduct_comm a b, mul_comm]
  · intro a x hx hx0
    have hpos := dotProduct_self_pos a x hx hx0
    rw [cosineSimilarity, if_neg (by simp)]
    rw [Real.mul_self_sqrt (le_of_lt hpos), div_self (ne_of_gt hpos)]

/-- C9 witness: the symmetry and self-similarity theorem applied to the
concrete vectors `[1, 2]` and `[3, 4]`. -/
theorem c9_cosine_symm_and_self_witness :
    cosineSimilarity [(1 : ℝ), 2] [3, 4] = cosineSimilarity [3, 4] [(1 : ℝ), 2] ∧
    cosineSimilarity [(1 : ℝ), 2] [(1 : ℝ), 2] = .ok 1 :=
  ⟨c9_cosine_symm_and_self.1 [(1 : ℝ), 2] [3, 4] rfl,
   c9_cosine_symm_and_self.2 [(1 : ℝ), 2] 1 (by simp) one_ne_zero⟩

/-! Claim C10: monotonicity of `combineScores` in the spatial relevance. -/

/-- C10: for a fixed similarity and a positive spatial weight, the combined
score `(1 - w)·s + w·r` is monotone non-decreasing in the spatial
relevance `r`. -/
theorem c10_combineScores_monotone (similarity r1 r2 spatialWeight : ℝ)
    (hw : 0 < spatialWeight) (hr : r1 ≤ r2) :
    combineScores similarity r1 spatialWeight ≤ combineScores similarity r2 spatialWeight := by
  simp only [combineScores]
  nlinarith

/-- C10 witness: monotonicity applied at similarity `0.5`, weight `0.3`,
relevances `0.2 ≤ 0.4`. -/
theorem c10_combineScores_monotone_witness :
    combineScores 0.5 0.2 0.3 ≤ combineScores 0.5 0.4 0.3 :=
  c10_combineScores_monotone 0.5 0.2 0.4 0.3 (by norm_num) (by norm_num)

end GeographicVectorStore

/-! Embedding of the embedding layer (`MockEmbeddingProvider` and
`GeographicEmbeddingEnhancer` from src/lib/rag, second file of types.ts
bundle).  Only ASCII inputs occur, so `charCodeAt` is `Char.toNat`. -/

namespace MockEmbeddingProvider

def dimensions : ℕ := 384

/-- JS `ToInt32` conversion (the result range of `<<` and `&`). -/
def toInt32 (x : ℤ) : ℤ := (x + 2 ^ 31) % 2 ^ 32 - 2 ^ 31

/-- One step of `simpleHash`: `hash = (hash << 5) - hash + char` followed by
`hash = hash & hash` (an identity on 32-bit values that forces `ToInt32`). -/
def simpleHashStep (hash : ℤ) (char : ℕ) : ℤ :=
  toInt32 (toInt32 (hash * 32) - hash + char)

/-- Embedding of `simpleHash`, with the final `Math.abs`. -/
def simpleHash (str : String) : ℤ :=
  |str.data.foldl (fun hash c => simpleHashStep hash c.toNat) 0|

/-- Embedding of `generateEmbedding`: a deterministic unit-normalized
vector of `dimensions` sin/cos values seeded by the text hash. -/
noncomputable def generateEmbedding (text : String) : List ℝ :=
  let hash := simpleHash text
  let embedding := (List.range dimensions).map (fun i : ℕ =>
    let seed : ℝ := (hash : ℝ) + (i : ℝ)
    (Real.sin seed + Real.cos (seed * 1.5) + Real.sin (seed * 2.3)) / 3)
  let magnitude := Real.sqrt (embedding.foldl (fun sum val => sum + val * val) 0)
  embedding.map (fun val => val / magnitude)

/-- Embedding of `generateBatchEmbeddings`: processed in sub-batches of 10,
which preserves order and per-text results, i.e. a plain map. -/
noncomputable def generateBatchEmbeddings (texts : List String) : List (List ℝ) :=
  texts.map generateEmbedding

theorem generateEmbedding_length (text : String) :
    (generateEmbedding text).length = 384 := by
  simp [generateEmbedding, dimensions]

end MockEmbeddingProvider

namespace GeographicEmbeddingEnhancer

/-- Embedding of `encodeClimate`. -/
noncomputable def encodeClimate (climate : String) : List ℝ :=
  if climate.toLower = "tropical" then [1, 0, 0]
  else if climate.toLower = "temperate" then [0, 1, 0]
  else if climate.toLower = "polar" then [0, 0, 1]
  else if climate.toLower = "arid" then [0.5, 0.5, 0]
  else if climate.toLower = "mediterranean" then [0.7, 0.3, 0]
  else [0, 0, 0]

/-- Embedding of `extractSpatialFeatures`: 6 coordinate-derived features
when a location is set, one elevation feature (the JS truthiness check
means elevation 0 takes the default branch, same value), and a 3-entry
climate encoding (an empty climate string is falsy, same default). -/
noncomputable def extractSpatialFeatures (document : GeographicDocument) : List ℝ :=
  (match document.metadata.location with
   | some loc =>
     [loc.latitude / 90, loc.longitude / 180,
      Real.sin (loc.latitude * Real.pi / 180), Real.cos (loc.latitude * Real.pi / 180),
      Real.sin (loc.longitude * Real.pi / 180), Real.cos (loc.longitude * Real.pi / 180)]
   | none => []) ++
  (match document.spatialContext with
   | some sc =>
     match sc.elevation with
     | some e => if e = 0 then [0] else [Real.tanh (e / 5000)]
     | none => [0]
   | none => [0]) ++
  (match document.spatialContext with
   | some sc => if sc.climate = "" then [0, 0, 0] else encodeClimate sc.climate
   | none => [0, 0, 0])

/-- Embedding of `enhanceWithSpatialContext`: appends the spatial features
to the text embedding when the document has a location. -/
noncomputable def enhanceWithSpatialContext (textEmbedding : List ℝ)
    (document : GeographicDocument) : List ℝ :=
  match document.metadata.location with
  | some _ => textEmbedding ++ extractSpatialFeatures document
  | none => textEmbedding

theorem encodeClimate_length (climate : String) : (encodeClimate climate).length = 3 := by
  unfold encodeClimate
  split_ifs <;> rfl

theorem extractSpatialFeatures_length (document : GeographicDocument) (loc : Coordinates)
    (hloc : document.metadata.location = some loc) :
    (extractSpatialFeatures document).length = 10 := by
  unfold extractSpatialFeatures
  rw [hloc]
  rcases hsc : document.spatialContext with _ | sc
  · simp
  · rcases helev : sc.elevation with _ | e
    · by_cases hcl : sc.climate = "" <;>
        simp [helev, hcl, encodeClimate_length]
    · by_cases he : e = 0 <;> by_cases hcl : sc.climate = "" <;>
        simp [helev, he, hcl, encodeClimate_length]

theorem enhanceWithSpatialContext_length (textEmbedding : List ℝ)
    (document : GeographicDocument) (loc : Coordinates)
    (hloc : document.metadata.location = some loc) :
    (enhanceWithSpatialContext textEmbedding document).length = textEmbedding.length + 10 := by
  unfold enhanceWithSpatialContext
  rw [hloc]
  simp [extractSpatialFeatures_length document loc hloc]

end GeographicEmbeddingEnhancer

/-! Embedding of src/lib/rag/rag-engine.ts (`GeographicRAGEngine`).
Host-clock timing fields of the response metadata are omitted; JS number
formatting (`toFixed`, template interpolation) is parameterized as
`numFmt` / `numStr`. -/

structure RagSpatialContext where
  queryLocation : Option Coordinates
  relevantRegions : List String
  spatialScope : String

structure RAGResponse where
  answer : String
  sources : List VectorSearchResult
  spatialContext : RagSpatialContext
  confidence : ℝ
  documentsRetrieved : ℕ
  spatialFiltering : Bool

namespace GeographicRAGEngine

open MockEmbeddingProvider GeographicEmbeddingEnhancer GeographicVectorStore

/-- Options of the engine-owned vector store (constructor of
`GeographicRAGEngine`). -/
def engineOptions : VectorStoreOptions :=
  { dimensions := 384, spatialWeight := 0.3, maxResults := 10 }

/-- Assignment `doc.embedding = enhanceWithSpatialContext(baseEmbedding, doc)`
performed on a document during ingestion (the base embedding is the text
embedding of its content). -/
noncomputable def enhanceDoc (doc : GeographicDocument) : GeographicDocument :=
  { doc with embedding := some (enhanceWithSpatialContext (generateEmbedding doc.content) doc) }

/-- Document preprocessing of `initialize`: only documents **lacking** an
embedding get the batch text embedding enhanced with spatial context
(rag-engine.ts:26 filters `!doc.embedding`); documents that already carry
an embedding pass through unchanged. -/
noncomputable def initializeDocs (documents : List GeographicDocument) :
    List GeographicDocument :=
  documents.map (fun doc =>
    match doc.embedding with
    | none => enhanceDoc doc
    | some _ => doc)

/-- Embedding of `initialize` on a fresh engine: preprocess, then add all
documents to the vector store. -/
noncomputable def initializeStore (documents : List GeographicDocument) : VectorStoreState :=
  GeographicVectorStore.addDocuments emptyStore (initializeDocs documents)

/-- Embedding of `GeographicRAGEngine.addDocuments` (rag-engine.ts:180-191):
unlike `initialize`, it embeds and spatially enhances **every** document,
overwriting any pre-existing embedding, then adds them to the store. -/
noncomputable def addDocuments (st : VectorStoreState)
    (documents : List GeographicDocument) : VectorStoreState :=
  GeographicVectorStore.addDocuments st (documents.map enhanceDoc)

/-- Embedding of `generateAnswer` (template-based synthesis). -/
noncomputable def generateAnswer (numFmt : ℝ → ℕ → String) (numStr : ℝ → String)
    (query : RAGQuery) (sources : List VectorSearchResult) : String :=
  if sources.length = 0 then
    "I don\x27t have enough information to answer your question about this geographic area. Please try a different query or expand your search radius."
  else
    let featureSources := sources.filter (fun s => decide (s.document.metadata.type = DocType.feature))
    let analysisSources := sources.filter (fun s => decide (s.document.metadata.type = DocType.analysis))
    let base := "Based on the available geographic data, here\x27s what I found:\n\n"
    let featurePart :=
      if featureSources.length > 0 then
        "Geographic Features:\n" ++
          String.join ((featureSources.take 3).enum.map (fun p =>
            toString (p.1 + 1) ++ ". " ++ ((p.2.document.content.splitOn ".").headD "") ++ ".\n")) ++
          "\n"
      else ""
    let analysisPart :=
      if analysisSources.length > 0 then
        "Satellite Analysis Insights:\n" ++
          String.join ((analysisSources.take 2).enum.map (fun p =>
            toString (p.1 + 1) ++ ". " ++ ((p.2.document.content.splitOn "\n").headD "") ++ "\n")) ++
          "\n"
      else ""
    let spatialPart :=
      match query.location with
      | some loc =>
        "This information is relevant to the area around coordinates " ++
          numFmt loc.latitude 4 ++ ", " ++ numFmt loc.longitude 4 ++
          (match query.radius with
           | some r => if r = 0 then "" else " within a " ++ numStr r ++ "km radius"
           | none => "") ++ ".\n\n"
      | none => ""
    let avgConfidence :=
      (sources.foldl (fun sum s => sum + s.combinedScore) 0) / (sources.length : ℝ)
    let confidencePart :=
      if avgConfidence < 0.7 then
        "Note: This information has moderate confidence. Consider expanding your search or consulting additional sources."
      else ""
    base ++ featurePart ++ analysisPart ++ spatialPart ++ confidencePart

/-- Embedding of `analyzeSpatialContext` (an empty region string and a
radius of `0` are falsy in the source's checks). -/
noncomputable def analyzeSpatialContext (query : RAGQuery)
    (sources : List VectorSearchResult) : RagSpatialContext :=
  let relevantRegions := sources.foldl
    (fun acc s =>
      match s.document.spatialContext with
      | some sc => if sc.region = "" then acc else setAdd acc sc.region
      | none => acc)
    []
  let spatialScope :=
    match query.location with
    | none => "global"
    | some _ =>
      match query.radius with
      | some r =>
        if r ≠ 0 ∧ r ≤ 10 then "local"
        else if r ≠ 0 ∧ r ≤ 100 then "regional"
        else "national"
      | none => "national"
  { queryLocation := query.location, relevantRegions := relevantRegions,
    spatialScope := spatialScope }

/-- Embedding of `calculateConfidence`. -/
noncomputable def calculateConfidence (sources : List VectorSearchResult) : ℝ :=
  if sources.length = 0 then 0
  else
    let avgScore :=
      (sources.foldl (fun sum s => sum + s.combinedScore) 0) / (sources.length : ℝ)
    let diversityBonus := min ((sources.length : ℝ) / 5) 1 * 0.1
    min 1 (avgScore + diversityBonus)

/-- Embedding of `GeographicRAGEngine.query`: embeds the query text
(without spatial augmentation), searches the vector store, and synthesizes
a response; a throw inside `search` propagates and fails the query. -/
noncomputable def ragQuery (dateVal : String → ℤ) (numFmt : ℝ → ℕ → String)
    (numStr : ℝ → String) (st : VectorStoreState) (query : RAGQuery) :
    Except String RAGResponse :=
  let queryEmbedding := generateEmbedding query.text
  match search st engineOptions dateVal queryEmbedding query with
  | .error e => .error e
  | .ok searchResults =>
    .ok { answer := generateAnswer numFmt numStr query searchResults
          sources := searchResults
          spatialContext := analyzeSpatialContext query searchResults
          confidence := calculateConfidence searchResults
          documentsRetrieved := searchResults.length
          spatialFiltering := query.location.isSome }

end GeographicRAGEngine

/-! Supporting lemmas for claim C2. -/

namespace GeographicVectorStore

theorem addDocuments_cons (st : VectorStoreState) (d : GeographicDocument)
    (rest : List GeographicDocument) :
    addDocuments st (d :: rest) = addDocuments (addDocument st d) rest := rfl

theorem addDocuments_documents_preserve (docs : List GeographicDocument) :
    ∀ (st : VectorStoreState) (id : String), id ∉ docs.map GeographicDocument.id →
      aget (addDocuments st docs).documents id = aget st.documents id := by
  induction docs with
  | nil => intro st id _; rfl
  | cons d rest ih =>
    intro st id h
    simp only [List.map_cons, List.mem_cons, not_or] at h
    obtain ⟨hne, hrest⟩ := h
    rw [addDocuments_cons, ih (addDocument st d) id hrest]
    exact aget_aset_ne st.documents d.id id _ (fun he => hne he.symm)

theorem addDocuments_embeddings_preserve (docs : List GeographicDocument) :
    ∀ (st : VectorStoreState) (id : String), id ∉ docs.map GeographicDocument.id →
      aget (addDocuments st docs).embeddings id = aget st.embeddings id := by
  induction docs with
  | nil => intro st id _; rfl
  | cons d rest ih =>
    intro st id h
    simp only [List.map_cons, List.mem_cons, not_or] at h
    obtain ⟨hne, hrest⟩ := h
    rw [addDocuments_cons, ih (addDocument st d) id hrest]
    cases hemb : d.embedding with
    | none => simp [addDocument, hemb]
    | some e =>
      simp only [addDocument, hemb]
      exact aget_aset_ne st.embeddings d.id id _ (fun he => hne he.symm)

theorem addDocuments_documents_get (docs : List GeographicDocument) :
    ∀ (st : VectorStoreState) (d : GeographicDocument), d ∈ docs →
      (docs.map GeographicDocument.id).Nodup →
      aget (addDocuments st docs).documents d.id = some d := by
  induction docs with
  | nil => intro st d h; cases h
  | cons d0 rest ih =>
    intro st d hmem hnodup
    rw [List.map_cons, List.nodup_cons] at hnodup
    obtain ⟨hnotin, hnd⟩ := hnodup
    rcases List.mem_cons.1 hmem with h | h
    · subst h
      rw [addDocuments_cons, addDocuments_documents_preserve rest _ d.id hnotin]
      simp [addDocument, aget_aset_self]
    · exact ih (addDocument st d0) d h hnd

theorem addDocuments_embeddings_get (docs : List GeographicDocument) :
    ∀ (st : VectorStoreState) (d : GeographicDocument) (e : List ℝ), d ∈ docs →
      d.embedding = some e → (docs.map GeographicDocument.id).Nodup →
      aget (addDocuments st docs).embeddings d.id = some e := by
  induction docs with
  | nil => intro st d e h; cases h
  | cons d0 rest ih =>
    intro st d e hmem hemb hnodup
    rw [List.map_cons, List.nodup_cons] at hnodup
    obtain ⟨hnotin, hnd⟩ := hnodup
    rcases List.mem_cons.1 hmem with h | h
    · subst h
      rw [addDocuments_cons, addDocuments_embeddings_preserve rest _ d.id hnotin]
      simp [addDocument, hemb, aget_aset_self]
    · exact ih (addDocument st d0) d e h hemb hnd

theorem cosineSimilarity_error_msg (a b : List ℝ) (e : String)
    (h : cosineSimilarity a b = .error e) : e = "Vectors must have the same length" := by
  rw [cosineSimilarity] at h
  by_cases hlen : a.length ≠ b.length
  · rw [if_pos hlen] at h
    injection h with h'
    exact h'.symm
  · rw [if_neg hlen] at h
    simp at h

theorem searchLoop_error (st : VectorStoreState) (qEmb : List ℝ) (q : RAGQuery) (w : ℝ)
    (candidates : List String) (id : String) (doc : GeographicDocument) (emb : List ℝ)
    (hid : id ∈ candidates)
    (hdoc : aget st.documents id = some doc)
    (hemb : aget st.embeddings id = some emb)
    (hlen : qEmb.length ≠ emb.length) :
    searchLoop st qEmb q w candidates = .error ("Vectors must have the same length") := by
  induction candidates with
  | nil => cases hid
  | cons c rest ih =>
    rcases List.mem_cons.1 hid with h | h
    · subst h
      have hcos : cosineSimilarity qEmb emb = .error ("Vectors must have the same length") := by
        rw [cosineSimilarity, if_pos hlen]
      simp only [searchLoop, hdoc, hemb, hcos]
    · have hrest := ih h
      cases hc : aget st.documents c with
      | none => simpa only [searchLoop, hc] using hrest
      | some doc0 =>
        cases he : aget st.embeddings c with
        | none => simpa only [searchLoop, hc, he] using hrest
        | some emb0 =>
          cases hcos : cosineSimilarity qEmb emb0 with
          | error e0 =>
            have he0 := cosineSimilarity_error_msg qEmb emb0 e0 hcos
            subst he0
            simp only [searchLoop, hc, he, hcos]
          | ok sim =>
            simp only [searchLoop, hc, he, hcos, hrest]

theorem search_error (st : VectorStoreState) (options : VectorStoreOptions)
    (dateVal : String → ℤ) (qEmb : List ℝ) (q : RAGQuery)
    (id : String) (doc : GeographicDocument) (emb : List ℝ)
    (hid : id ∈ getCandidateDocuments dateVal st q)
    (hdoc : aget st.documents id = some doc)
    (hemb : aget st.embeddings id = some emb)
    (hlen : qEmb.length ≠ emb.length) :
    search st options dateVal qEmb q = .error ("Vectors must have the same length") := by
  have h := searchLoop_error st qEmb q options.spatialWeight
    (getCandidateDocuments dateVal st q) id doc emb hid hdoc hemb hlen
  simp only [search, h]

end GeographicVectorStore

namespace GeographicRAGEngine

theorem enhanceDoc_id (d : GeographicDocument) : (enhanceDoc d).id = d.id := rfl

theorem initializeDocs_map_id (docs : List GeographicDocument) :
    (initializeDocs docs).map GeographicDocument.id = docs.map GeographicDocument.id := by
  unfold initializeDocs
  rw [List.map_map]
  apply List.map_congr_left
  intro doc _
  cases h : doc.embedding <;> simp [h, enhanceDoc]

theorem enhanceAll_map_id (docs : List GeographicDocument) :
    (docs.map enhanceDoc).map GeographicDocument.id = docs.map GeographicDocument.id := by
  rw [List.map_map]
  apply List.map_congr_left
  intro doc _
  rfl

theorem initializeDocs_mem (docs : List GeographicDocument) (d : GeographicDocument)
    (hmem : d ∈ docs) (hemb : d.embedding = none) :
    enhanceDoc d ∈ initializeDocs docs := by
  unfold initializeDocs
  exact List.mem_map.2 ⟨d, hmem, by rw [hemb]⟩

theorem initializeDocs_mem_pre (docs : List GeographicDocument) (d : GeographicDocument)
    (e0 : List ℝ) (hmem : d ∈ docs) (hemb : d.embedding = some e0) :
    d ∈ initializeDocs docs := by
  unfold initializeDocs
  exact List.mem_map.2 ⟨d, hmem, by simp [hemb]⟩

open MockEmbeddingProvider GeographicVectorStore in
/-- A store holding a document whose stored embedding length differs from
the 384-entry query text embedding fails the whole RAG query with the
cosine length-mismatch error once that document is a search candidate. -/
theorem ragQuery_length_mismatch (dateVal : String → ℤ) (numFmt : ℝ → ℕ → String)
    (numStr : ℝ → String) (st : VectorStoreState) (q : RAGQuery) (id : String)
    (doc : GeographicDocument) (e : List ℝ)
    (hdoc : aget st.documents id = some doc)
    (hemb : aget st.embeddings id = some e)
    (hne : e.length ≠ 384)
    (hcand : id ∈ getCandidateDocuments dateVal st q) :
    ragQuery dateVal numFmt numStr st q = .error ("Vectors must have the same length") := by
  have hlenne : (generateEmbedding q.text).length ≠ e.length := by
    rw [generateEmbedding_length]
    omega
  have hse := search_error st engineOptions dateVal (generateEmbedding q.text) q
    id doc e hcand hdoc hemb hlenne
  simp only [ragQuery, hse]

open MockEmbeddingProvider GeographicEmbeddingEnhancer GeographicVectorStore in
/-- C2 amended.  Ingestion augments embeddings as follows:
1. `initialize` stores every located document **lacking** an embedding
   with the 384-entry text embedding concatenated with 10 spatial scalars,
   while `query` embeds the query text without augmentation (384 entries),
   so such a candidate makes `cosineSimilarity` hit its length guard and
   the whole RAG query fails with the length-mismatch error;
2. a document ingested through `initialize` that already carries an
   embedding is stored with that embedding **unchanged** (this is where
   the original claim's universal augmentation statement fails);
3. the engine's `addDocuments` augments **every** document, pre-existing
   embedding or not, with the same 10 extra scalars and the same
   query-failure consequence for located documents. -/
theorem c2_ingestion_augmentation_amended :
    (∀ (dateVal : String → ℤ) (numFmt : ℝ → ℕ → String) (numStr : ℝ → String)
        (docs : List GeographicDocument) (d : GeographicDocument) (loc : Coordinates)
        (q : RAGQuery), d ∈ docs → d.metadata.location = some loc →
        d.embedding = none → (docs.map GeographicDocument.id).Nodup →
        d.id ∈ getCandidateDocuments dateVal (initializeStore docs) q →
        (∃ e, aget (initializeStore docs).embeddings d.id = some e ∧
          e.length = (generateEmbedding d.content).length + 10) ∧
        (generateEmbedding q.text).length = 384 ∧
        ragQuery dateVal numFmt numStr (initializeStore docs) q =
          .error ("Vectors must have the same length")) ∧
    (∀ (docs : List GeographicDocument) (d : GeographicDocument) (e0 : List ℝ),
        d ∈ docs → d.embedding = some e0 →
        (docs.map GeographicDocument.id).Nodup →
        aget (initializeStore docs).embeddings d.id = some e0) ∧
    (∀ (dateVal : String → ℤ) (numFmt : ℝ → ℕ → String) (numStr : ℝ → String)
        (st : VectorStoreState) (docs : List GeographicDocument)
        (d : GeographicDocument) (loc : Coordinates) (q : RAGQuery),
        d ∈ docs → d.metadata.location = some loc →
        (docs.map GeographicDocument.id).Nodup →
        d.id ∈ getCandidateDocuments dateVal (addDocuments st docs) q →
        (∃ e, aget (addDocuments st docs).embeddings d.id = some e ∧
          e.length = (generateEmbedding d.content).length + 10) ∧
        (generateEmbedding q.text).length = 384 ∧
        ragQuery dateVal numFmt numStr (addDocuments st docs) q =
          .error ("Vectors must have the same length")) := by
  refine ⟨?_, ?_, ?_⟩
  · intro dateVal numFmt numStr docs d loc q hmem hloc hembn hnodup hcand
    have hmem' := initializeDocs_mem docs d hmem hembn
    have hnodup' : ((initializeDocs docs).map GeographicDocument.id).Nodup := by
      rw [initializeDocs_map_id]
      exact hnodup
    have hgetDoc : aget (initializeStore docs).documents d.id = some (enhanceDoc d) :=
      addDocuments_documents_get (initializeDocs docs) emptyStore (enhanceDoc d)
        hmem' hnodup'
    have hgetEmb : aget (initializeStore docs).embeddings d.id =
        some (enhanceWithSpatialContext (generateEmbedding d.content) d) :=
      addDocuments_embeddings_get (initializeDocs docs) emptyStore (enhanceDoc d)
        (enhanceWithSpatialContext (generateEmbedding d.content) d) hmem' rfl hnodup'
    have hlen : (enhanceWithSpatialContext (generateEmbedding d.content) d).length =
        (generateEmbedding d.content).length + 10 :=
      enhanceWithSpatialContext_length (generateEmbedding d.content) d loc hloc
    refine ⟨⟨_, hgetEmb, hlen⟩, generateEmbedding_length q.text, ?_⟩
    apply ragQuery_length_mismatch dateVal numFmt numStr _ q d.id (enhanceDoc d) _
      hgetDoc hgetEmb ?_ hcand
    rw [hlen, generateEmbedding_length]
    omega
  · intro docs d e0 hmem hemb hnodup
    have hmem' := initializeDocs_mem_pre docs d e0 hmem hemb
    have hnodup' : ((initializeDocs docs).map GeographicDocument.id).Nodup := by
      rw [initializeDocs_map_id]
      exact hnodup
    exact addDocuments_embeddings_get (initializeDocs docs) emptyStore d e0
      hmem' hemb hnodup'
  · intro dateVal numFmt numStr st docs d loc q hmem hloc hnodup hcand
    have hmem' : enhanceDoc d ∈ docs.map enhanceDoc := List.mem_map.2 ⟨d, hmem, rfl⟩
    have hnodup' : ((docs.map enhanceDoc).map GeographicDocument.id).Nodup := by
      rw [enhanceAll_map_id]
      exact hnodup
    have hgetDoc : aget (addDocuments st docs).documents d.id = some (enhanceDoc d) :=
      addDocuments_documents_get (docs.map enhanceDoc) st (enhanceDoc d) hmem' hnodup'
    have hgetEmb : aget (addDocuments st docs).embeddings d.id =
        some (enhanceWithSpatialContext (generateEmbedding d.content) d) :=
      addDocuments_embeddings_get (docs.map enhanceDoc) st (enhanceDoc d)
        (enhanceWithSpatialContext (generateEmbedding d.content) d) hmem' rfl hnodup'
    have hlen : (enhanceWithSpatialContext (generateEmbedding d.content) d).length =
        (generateEmbedding d.content).length + 10 :=
      enhanceWithSpatialContext_length (generateEmbedding d.content) d loc hloc
    refine ⟨⟨_, hgetEmb, hlen⟩, generateEmbedding_length q.text, ?_⟩
    apply ragQuery_length_mismatch dateVal numFmt numStr _ q d.id (enhanceDoc d) _
      hgetDoc hgetEmb ?_ hcand
    rw [hlen, generateEmbedding_length]
    omega

def c2wDoc : GeographicDocument :=
  { id := "d1", content := "a located document without an embedding",
    metadata := { type := .report, location := some ⟨0, 0⟩, timestamp := "2024-01-01",
                  tags := [], confidence := none },
    embedding := none, spatialContext := none }

def c2PreDoc : GeographicDocument :=
  { id := "d2", content := "a located document with a pre-existing embedding",
    metadata := { type := .report, location := some ⟨0, 0⟩, timestamp := "2024-01-01",
                  tags := [], confidence := none },
    embedding := some [1, 2, 3], spatialContext := none }

def c2wQuery : RAGQuery :=
  { text := "any question", location := none, radius := none, filters := none,
    spatialWeight := none }

open MockEmbeddingProvider GeographicVectorStore in
/-- C2 counterexample: the located document `d2` carries a pre-existing
3-entry embedding and is ingested through `initialize`; it is stored with
that embedding unchanged, which is **not** the provider's text vector
concatenated with 10 extra scalars (384 + 10 entries) — refuting the
claim's universal augmentation statement. -/
theorem c2_preexisting_embedding_counterexample :
    c2PreDoc.metadata.location = some ⟨0, 0⟩ ∧
    c2PreDoc.embedding = some [1, 2, 3] ∧
    aget (initializeStore [c2PreDoc]).documents c2PreDoc.id = some c2PreDoc ∧
    aget (initializeStore [c2PreDoc]).embeddings c2PreDoc.id = some [1, 2, 3] ∧
    ([1, 2, 3] : List ℝ).length ≠ (generateEmbedding c2PreDoc.content).length + 10 := by
  refine ⟨rfl, rfl, ?_, ?_, ?_⟩
  · simp [initializeStore, initializeDocs, GeographicVectorStore.addDocuments,
      addDocument, emptyStore, aset, aget, List.foldl, c2PreDoc]
  · simp [initializeStore, initializeDocs, GeographicVectorStore.addDocuments,
      addDocument, emptyStore, aset, aget, List.foldl, c2PreDoc]
  · rw [generateEmbedding_length]
    decide

open GeographicVectorStore in
theorem c2w_candidate :
    c2wDoc.id ∈ getCandidateDocuments (fun _ => 0) (initializeStore [c2wDoc]) c2wQuery := by
  simp only [getCandidateDocuments, c2wQuery]
  simp [initializeStore, initializeDocs, enhanceDoc, GeographicVectorStore.addDocuments,
    addDocument, emptyStore, aset, akeys, c2wDoc, List.foldl]

open GeographicVectorStore in
theorem c2w_engine_candidate :
    c2wDoc.id ∈ getCandidateDocuments (fun _ => 0)
      (GeographicRAGEngine.addDocuments emptyStore [c2wDoc]) c2wQuery := by
  simp only [getCandidateDocuments, c2wQuery]
  simp [GeographicRAGEngine.addDocuments, enhanceDoc, GeographicVectorStore.addDocuments,
    addDocument, emptyStore, aset, akeys, c2wDoc, List.foldl]

open GeographicVectorStore in
/-- C2 witness: all three parts of the amended theorem at concrete inputs —
the embedding-less located document via `initialize` fails the query, the
pre-existing 3-entry embedding is stored unchanged, and the same document
via the engine's `addDocuments` fails the query as well. -/
theorem c2_ingestion_augmentation_amended_witness :
    ragQuery (fun _ => 0) (fun _ _ => "") (fun _ => "") (initializeStore [c2wDoc]) c2wQuery =
      .error ("Vectors must have the same length") ∧
    aget (initializeStore [c2PreDoc]).embeddings c2PreDoc.id = some [1, 2, 3] ∧
    ragQuery (fun _ => 0) (fun _ _ => "") (fun _ => "")
        (GeographicRAGEngine.addDocuments emptyStore [c2wDoc]) c2wQuery =
      .error ("Vectors must have the same length") :=
  ⟨(c2_ingestion_augmentation_amended.1 (fun _ => 0) (fun _ _ => "") (fun _ => "")
      [c2wDoc] c2wDoc ⟨0, 0⟩ c2wQuery (by simp) rfl rfl (by simp) c2w_candidate).2.2,
   c2_ingestion_augmentation_amended.2.1 [c2PreDoc] c2PreDoc [1, 2, 3] (by simp) rfl (by simp),
   (c2_ingestion_augmentation_amended.2.2 (fun _ => 0) (fun _ _ => "") (fun _ => "")
      emptyStore [c2wDoc] c2wDoc ⟨0, 0⟩ c2wQuery (by simp) rfl (by simp)
      c2w_engine_candidate).2.2⟩

end GeographicRAGEngine

/-! Embedding of the query parser (src/lib/query/parser.ts) and its types
(src/lib/query/types.ts).  The parser's arithmetic is purely rational, so
its numbers are modeled as `ℚ`.  The JS regexes are embedded as explicit
scanners over the character list, reproducing the patterns' matching
including word boundaries, case-insensitivity, alternation order, and
greedy/lazy backtracking where reachable.  `Date` arithmetic (used only
for temporal-constraint date strings) is a host capability, modeled by the
`DateOps` parameter. -/

inductive IntentType where
  | search | compare | analyze | describe | find_nearby | route | change_detection
deriving DecidableEq

structure QueryIntent where
  type : IntentType
  subtype : Option String
  description : String
deriving DecidableEq

inductive EntityType where
  | location | feature_type | measurement | time | organization
deriving DecidableEq

inductive DistanceUnit where
  | km | miles | meters
deriving DecidableEq

/-- Values carried by the dynamically-typed `ExtractedEntity.value`. -/
inductive EntityValue where
  | str (s : String)
  | coords (latitude longitude : ℚ)
  | dist (distance : ℚ) (unit : DistanceUnit)
deriving DecidableEq

structure ExtractedEntity where
  text : String
  type : EntityType
  value : EntityValue
  confidence : ℚ
  position : ℕ × ℕ
deriving DecidableEq

inductive ConstraintType where
  | point | radius | bounds | polygon | within | intersects | near
deriving DecidableEq

structure ConstraintParams where
  radius : Option ℚ
  unit : Option DistanceUnit
  locationName : Option String
deriving DecidableEq

structure SpatialConstraint where
  type : ConstraintType
  geometry : ℚ × ℚ
  parameters : Option ConstraintParams
deriving DecidableEq

structure TemporalConstraint where
  type : String
  startDate : String
  endDate : String
deriving DecidableEq

inductive FilterValue where
  | str (s : String)
  | num (q : ℚ)
deriving DecidableEq

structure QueryFilter where
  field : String
  operator : String
  value : FilterValue
deriving DecidableEq

structure ParsedQuery where
  intent : QueryIntent
  entities : List ExtractedEntity
  spatialConstraints : List SpatialConstraint
  temporalConstraints : List TemporalConstraint
  filters : List QueryFilter
  confidence : ℚ

/-- Host `Date` capability: the current day and calendar back-shifts, as
ISO date strings (`toISOString().split("T")[0]`). -/
structure DateOps where
  todayISO : String
  shiftDays : ℕ → String
  shiftMonths : ℕ → String
  shiftYears : ℕ → String

namespace GeographicQueryParser

/-! Character classes (inputs are ASCII; `charCodeAt` is `Char.toNat`). -/

def isAsciiLetter (c : Char) : Bool :=
  (65 ≤ c.toNat && c.toNat ≤ 90) || (97 ≤ c.toNat && c.toNat ≤ 122)

def isDigitChar (c : Char) : Bool := 48 ≤ c.toNat && c.toNat ≤ 57

def isSpaceChar (c : Char) : Bool :=
  c = ' ' || c = '\t' || c = '\n' || c = '\r'

/-- JS `\w`. -/
def isWordChar (c : Char) : Bool := isAsciiLetter c || isDigitChar c || c = '_'

def toLowerChar (c : Char) : Char :=
  if 65 ≤ c.toNat && c.toNat ≤ 90 then Char.ofNat (c.toNat + 32) else c

def isWordAt (s : List Char) (i : ℕ) : Bool :=
  match s.get? i with
  | some c => isWordChar c
  | none => false

/-- JS `\b` at position `i` (between characters `i-1` and `i`). -/
def boundaryAt (s : List Char) (i : ℕ) : Bool :=
  (if i = 0 then false else isWordAt s (i - 1)) != isWordAt s i

/-- Case-insensitive literal match at a position (the literal is given in
lowercase). -/
def matchLitCI (s : List Char) (i : ℕ) : List Char → Bool
  | [] => true
  | p :: ps =>
    match s.get? i with
    | some c => toLowerChar c = p && matchLitCI s (i + 1) ps
    | none => false

/-- Length of the maximal run of characters satisfying `p` from `i`. -/
def runLenAux (p : Char → Bool) (s : List Char) : ℕ → ℕ → ℕ
  | 0, _ => 0
  | fuel + 1, i =>
    match s.get? i with
    | some c => if p c then runLenAux p s fuel (i + 1) + 1 else 0
    | none => 0

def runLen (p : Char → Bool) (s : List Char) (i : ℕ) : ℕ :=
  runLenAux p s (s.length + 1) i

def slice (s : List Char) (i j : ℕ) : List Char := (s.drop i).take (j - i)

def chStr (cs : List Char) : String := String.mk cs

def trimChars (cs : List Char) : List Char :=
  ((cs.dropWhile isSpaceChar).reverse.dropWhile isSpaceChar).reverse

/-- JS `toLowerCase` on the ASCII inputs in use. -/
def jsToLower (s : String) : String := String.mk (s.data.map toLowerChar)

/-- JS `trim` on the ASCII inputs in use. -/
def jsTrim (s : String) : String := String.mk (trimChars s.data)

/-- Substring containment, JS `String.prototype.includes`. -/
def isPrefixOfChars : List Char → List Char → Bool
  | [], _ => true
  | _ :: _, [] => false
  | a :: as, b :: bs => a = b && isPrefixOfChars as bs

def hasSubstring : List Char → List Char → Bool
  | s, sub =>
    isPrefixOfChars sub s ||
      (match s with
       | [] => false
       | _ :: rest => hasSubstring rest sub)

def strIncludes (s sub : String) : Bool := hasSubstring s.data sub.data

/-- Global-regex scan loop: at each position try `matchAt`; on a match
emit its payload and resume at the match end (`lastIndex` semantics). -/
def scanAux {α : Type} (matchAt : ℕ → Option (ℕ × α)) : ℕ → ℕ → List α
  | 0, _ => []
  | fuel + 1, p =>
    match matchAt p with
    | some (e, payload) => payload :: scanAux matchAt fuel (if p < e then e else p + 1)
    | none => scanAux matchAt fuel (p + 1)

def scanAll {α : Type} (matchAt : ℕ → Option (ℕ × α)) (len : ℕ) : List α :=
  scanAux matchAt (len + 1) 0

/-- First match only (a non-global `String.prototype.match`). -/
def findFirstAux {α : Type} (matchAt : ℕ → Option α) : ℕ → ℕ → Option α
  | 0, _ => none
  | fuel + 1, p =>
    match matchAt p with
    | some a => some a
    | none => findFirstAux matchAt fuel (p + 1)

def findFirstMatch {α : Type} (matchAt : ℕ → Option α) (len : ℕ) : Option α :=
  findFirstAux matchAt (len + 1) 0

def digitsToNat (cs : List Char) : ℕ :=
  cs.foldl (fun n c => 10 * n + (c.toNat - 48)) 0

/-- `parseFloat` on a captured decimal literal `digits[.digits]`. -/
def parseDecChars (cs : List Char) : ℚ :=
  let ip := cs.takeWhile (fun c => c ≠ '.')
  let fp := (cs.dropWhile (fun c => c ≠ '.')).drop 1
  (digitsToNat ip : ℚ) + (digitsToNat fp : ℚ) / 10 ^ fp.length

/-- `parseFloat` on a captured signed decimal literal `[-]digits[.digits]`. -/
def jsParseFloat (cs : List Char) : ℚ :=
  match cs with
  | '-' :: rest => -parseDecChars rest
  | _ => parseDecChars cs

/-- Candidate end positions of a decimal-number atom starting at `i`, in
the backtracking preference order of the regex engine: the greedy
fractional part first, shorter fractional tails next, then (for
`\d+\.?\d*`) the bare trailing dot, and finally the integer part alone.
`needFracDigit` distinguishes `\d+(?:\.\d+)?` from `\d+\.?\d*`. -/
def numberEnds (s : List Char) (i : ℕ) (needFracDigit : Bool) : List ℕ :=
  let d1 := runLen isDigitChar s i
  if d1 = 0 then []
  else
    let base := i + d1
    match s.get? base with
    | some c =>
      if c = '.' then
        let d2 := runLen isDigitChar s (base + 1)
        let fracEnds := (List.range d2).map (fun idx => base + 1 + (d2 - idx))
        (if needFracDigit then fracEnds else fracEnds ++ [base + 1]) ++ [base]
      else [base]
    | none => [base]

/-- Try the candidate number ends in order against a continuation. -/
def matchNumAnd {β : Type} (s : List Char) (i : ℕ) (needFracDigit : Bool)
    (k : ℕ → Option β) : Option (ℕ × β) :=
  (numberEnds s i needFracDigit).findSome? (fun e =>
    match k e with
    | some b => some (e, b)
    | none => none)

/-! Matchers for the individual regex patterns of the parser. -/

/-- Payload of a one-capture match: full-match span and captured group. -/
structure RawMatch where
  start : ℕ
  stop : ℕ
  capture : List Char
deriving DecidableEq

structure CoordMatch where
  start : ℕ
  stop : ℕ
  text : List Char
  latChars : List Char
  lonChars : List Char
deriving DecidableEq

structure MeasMatch where
  start : ℕ
  stop : ℕ
  text : List Char
  numChars : List Char
  unitText : List Char
deriving DecidableEq

inductive TimeUnit where
  | days | weeks | months | years
deriving DecidableEq

structure TimeMatch where
  amount : ℕ
  unit : TimeUnit
deriving DecidableEq

def prepositions : List String := ["in", "at", "near", "around", "within"]

/-- Lazy tail of the group of `LOCATION_PATTERNS[0]`
(`[a-zA-Z\s,]+?` followed by the terminator `(?:\s|$|,)`): at each step the
terminator alternatives are tried before extending the group. -/
def lazyGroupAux (s : List Char) : ℕ → ℕ → Option (ℕ × ℕ)
  | 0, _ => none
  | fuel + 1, r =>
    match s.get? r with
    | none => some (r, r)
    | some c =>
      if isSpaceChar c then some (r, r + 1)
      else if c = ',' then some (r, r + 1)
      else if isAsciiLetter c then lazyGroupAux s fuel (r + 1)
      else none

/-- `LOCATION_PATTERNS[0]`:
`\b(?:in|at|near|around|within)\s+([A-Z][a-zA-Z\s,]+?)(?:\s|$|,)` with
flags `gi` (so `[A-Z]` matches any letter). -/
def locPattern1MatchAt (s : List Char) (p : ℕ) : Option (ℕ × RawMatch) :=
  if !boundaryAt s p then none
  else
    prepositions.findSome? (fun prep =>
      if !matchLitCI s p prep.data then none
      else
        let q := p + prep.length
        let ws := runLen isSpaceChar s q
        if ws = 0 then none
        else
          let g0 := q + ws
          match s.get? g0 with
          | some c0 =>
            if !isAsciiLetter c0 then none
            else
              match s.get? (g0 + 1) with
              | some c1 =>
                if isAsciiLetter c1 || isSpaceChar c1 || c1 = ',' then
                  match lazyGroupAux s (s.length + 1) (g0 + 2) with
                  | some (capEnd, fullEnd) =>
                    some (fullEnd, ⟨p, fullEnd, slice s g0 capEnd⟩)
                  | none => none
                else none
              | none => none
          | none => none)

def locationSuffixes : List String :=
  ["city", "county", "state", "province", "country", "park", "mountain", "river", "lake"]

/-- Backtracking of the greedy `[a-zA-Z\s]+` of `LOCATION_PATTERNS[1]`:
try quantifier length `m` from the maximal run downwards; at each length
try the suffix alternatives in order, requiring a trailing `\b`. -/
def p2TrySuffix (s : List Char) (p : ℕ) : ℕ → Option (ℕ × RawMatch)
  | 0 => none
  | m + 1 =>
    match locationSuffixes.findSome? (fun suf =>
      let j := p + 1 + (m + 1) + suf.length
      if matchLitCI s (p + 1 + (m + 1)) suf.data && boundaryAt s j then some j
      else none) with
    | some j => some (j, ⟨p, j, slice s p j⟩)
    | none => p2TrySuffix s p m

/-- `LOCATION_PATTERNS[1]`:
`\b([A-Z][a-zA-Z\s]+(?:City|County|State|Province|Country|Park|Mountain|River|Lake))\b`
with flags `gi`. -/
def locPattern2MatchAt (s : List Char) (p : ℕ) : Option (ℕ × RawMatch) :=
  if !boundaryAt s p then none
  else
    match s.get? p with
    | some c0 =>
      if !isAsciiLetter c0 then none
      else p2TrySuffix s p (runLen (fun c => isAsciiLetter c || isSpaceChar c) s (p + 1))
    | none => none

/-- `LOCATION_PATTERNS[2]`: `\b(\d+\.?\d*)\s*,\s*(\d+\.?\d*)\b`
(no sign; the first number is the captured group). -/
def locPattern3MatchAt (s : List Char) (p : ℕ) : Option (ℕ × RawMatch) :=
  if !boundaryAt s p then none
  else
    (matchNumAnd s p false (fun e1 =>
      let w1 := runLen isSpaceChar s e1
      if s.get? (e1 + w1) ≠ some ',' then none
      else
        let q := e1 + w1 + 1
        let w2 := runLen isSpaceChar s q
        (matchNumAnd s (q + w2) false (fun e2 =>
          if boundaryAt s e2 then some e2 else none)).map (fun pr => (e1, pr.1)))).map
      (fun pr => (pr.2.2, ⟨p, pr.2.2, slice s p pr.2.1⟩))

/-- The standalone coordinate pattern of `extractEntities`:
`\b(-?\d+\.?\d*)\s*,\s*(-?\d+\.?\d*)\b` (signed; both numbers
parsed). -/
def coordMatchAt (s : List Char) (p : ℕ) : Option (ℕ × CoordMatch) :=
  if !boundaryAt s p then none
  else
    let sign1 := s.get? p == some '-'
    let i1 := if sign1 then p + 1 else p
    (matchNumAnd s i1 false (fun e1 =>
      let w1 := runLen isSpaceChar s e1
      if s.get? (e1 + w1) ≠ some ',' then none
      else
        let q := e1 + w1 + 1
        let w2 := runLen isSpaceChar s q
        let sign2 := s.get? (q + w2) == some '-'
        let i2 := if sign2 then q + w2 + 1 else q + w2
        (matchNumAnd s i2 false (fun e2 =>
          if boundaryAt s e2 then some e2 else none)).map
          (fun pr => (e1, q + w2, pr.1)))).map
      (fun pr =>
        let e1 := pr.2.1
        let g2 := pr.2.2.1
        let e2 := pr.2.2.2
        (e2, ⟨p, e2, slice s p e2, slice s p e1, slice s g2 e2⟩))

/-- Case-insensitive literal with the optional plural `s?` followed by
`\b` (backtracking: with the `s` present but no boundary after it, the
engine retries without the `s`, which cannot produce a boundary between
two letters, so it fails). -/
def litOptS (s : List Char) (q : ℕ) (lit : List Char) : Option ℕ :=
  if !matchLitCI s q lit then none
  else
    let j := q + lit.length
    match s.get? j with
    | some c =>
      if toLowerChar c = 's' then (if boundaryAt s (j + 1) then some (j + 1) else none)
      else if boundaryAt s j then some j
      else none
    | none => if boundaryAt s j then some j else none

/-- One feature-type pattern `\b{featureType}s?\b` (flags `gi`). -/
def ftMatchAt (ft : List Char) (s : List Char) (p : ℕ) : Option (ℕ × RawMatch) :=
  if !boundaryAt s p then none
  else
    match litOptS s p ft with
    | some j => some (j, ⟨p, j, slice s p j⟩)
    | none => none

/-- The unit alternation `(km|kilometers?|miles?|meters?|m)` followed by
`\b`, alternatives tried in order. -/
def unitAt (s : List Char) (q : ℕ) : Option ℕ :=
  if matchLitCI s q ['k', 'm'] && boundaryAt s (q + 2) then some (q + 2)
  else
    match litOptS s q "kilometer".data with
    | some j => some j
    | none =>
      match litOptS s q "mile".data with
      | some j => some j
      | none =>
        match litOptS s q "meter".data with
        | some j => some j
        | none =>
          if matchLitCI s q ['m'] && boundaryAt s (q + 1) then some (q + 1)
          else none

/-- Number-then-unit tail shared by both `DISTANCE_PATTERNS`
(`(\d+(?:\.\d+)?)\s*(km|kilometers?|miles?|meters?|m)\b`). -/
def distTail (s : List Char) (start numStart : ℕ) : Option (ℕ × MeasMatch) :=
  (matchNumAnd s numStart true (fun e1 =>
    let w := runLen isSpaceChar s e1
    (unitAt s (e1 + w)).map (fun uend => (e1, e1 + w, uend)))).map
    (fun pr =>
      let e1 := pr.2.1
      let ustart := pr.2.2.1
      let uend := pr.2.2.2
      (uend, ⟨start, uend, slice s start uend, slice s numStart e1,
        slice s ustart uend⟩))

/-- `DISTANCE_PATTERNS[0]`: `\b(\d+(?:\.\d+)?)\s*(km|kilometers?|miles?|meters?|m)\b`. -/
def distP1MatchAt (s : List Char) (p : ℕ) : Option (ℕ × MeasMatch) :=
  if !boundaryAt s p then none
  else distTail s p p

/-- `DISTANCE_PATTERNS[1]`: `\bwithin\s+(\d+(?:\.\d+)?)\s*(km|...)\b`. -/
def distP2MatchAt (s : List Char) (p : ℕ) : Option (ℕ × MeasMatch) :=
  if !boundaryAt s p then none
  else if !matchLitCI s p "within".data then none
  else
    let ws := runLen isSpaceChar s (p + 6)
    if ws = 0 then none
    else distTail s p (p + 6 + ws)

/-- `TIME_PATTERNS[0]`: `\b(last|past)\s+(\d+)\s+(days?|weeks?|months?|years?)\b`.
The other two time patterns never satisfy the loop body's
`match[1] === "last" || match[1] === "past"` check and produce nothing. -/
def timeP1MatchAt (s : List Char) (p : ℕ) : Option (ℕ × TimeMatch) :=
  if !boundaryAt s p then none
  else if !(matchLitCI s p "last".data || matchLitCI s p "past".data) then none
  else
    let w1 := runLen isSpaceChar s (p + 4)
    if w1 = 0 then none
    else
      let i := p + 4 + w1
      let d := runLen isDigitChar s i
      if d = 0 then none
      else
        let w2 := runLen isSpaceChar s (i + d)
        if w2 = 0 then none
        else
          let u := i + d + w2
          let amount := digitsToNat (slice s i (i + d))
          match litOptS s u "day".data with
          | some j => some (j, ⟨amount, .days⟩)
          | none =>
            match litOptS s u "week".data with
            | some j => some (j, ⟨amount, .weeks⟩)
            | none =>
              match litOptS s u "month".data with
              | some j => some (j, ⟨amount, .months⟩)
              | none =>
                match litOptS s u "year".data with
                | some j => some (j, ⟨amount, .years⟩)
                | none => none

/-- `/(?:type|category):\s*([a-zA-Z_]+)/i` (first match). -/
def typeFilterMatchAt (s : List Char) (p : ℕ) : Option (List Char) :=
  let afterKey : Option ℕ :=
    if matchLitCI s p "type".data then some (p + 4)
    else if matchLitCI s p "category".data then some (p + 8)
    else none
  match afterKey with
  | some q =>
    if s.get? q ≠ some ':' then none
    else
      let w := runLen isSpaceChar s (q + 1)
      let r := runLen (fun c => isAsciiLetter c || c = '_') s (q + 1 + w)
      if r = 0 then none
      else some (slice s (q + 1 + w) (q + 1 + w + r))
  | none => none

/-- `/(?:confidence|accuracy)\s*(?:>|above|greater than)\s*(\d+(?:\.\d+)?)/i`
(first match). -/
def confFilterMatchAt (s : List Char) (p : ℕ) : Option ℚ :=
  let afterKey : Option ℕ :=
    if matchLitCI s p "confidence".data then some (p + 10)
    else if matchLitCI s p "accuracy".data then some (p + 8)
    else none
  match afterKey with
  | some q =>
    let w := runLen isSpaceChar s q
    let afterOp : Option ℕ :=
      if s.get? (q + w) = some '>' then some (q + w + 1)
      else if matchLitCI s (q + w) "above".data then some (q + w + 5)
      else if matchLitCI s (q + w) "greater than".data then some (q + w + 12)
      else none
    match afterOp with
    | some r =>
      let w2 := runLen isSpaceChar s r
      (matchNumAnd s (r + w2) true (fun e => some e)).map
        (fun pr => parseDecChars (slice s (r + w2) pr.1))
    | none => none
  | none => none

/-! The extraction passes of the parser. -/

def INTENT_KEYWORDS : List (IntentType × List String) :=
  [(.search, ["find", "search", "locate", "show", "list", "get"]),
   (.compare, ["compare", "difference", "versus", "vs", "contrast"]),
   (.analyze, ["analyze", "analysis", "examine", "study", "investigate"]),
   (.describe, ["describe", "what is", "tell me about", "information about"]),
   (.find_nearby, ["nearby", "close to", "around", "near", "within"]),
   (.route, ["route", "path", "direction", "navigate", "travel"]),
   (.change_detection, ["change", "changed", "difference", "evolution", "trend"])]

def FEATURE_TYPES : List String :=
  ["city", "town", "village", "mountain", "river", "lake", "forest", "park",
   "building", "road", "highway", "airport", "hospital", "school", "restaurant",
   "vegetation", "water", "urban", "agriculture", "desert", "coastline"]

/-- Embedding of `generateIntentDescription`.  The source's
`subtype.replace("_", " ")` replaces the first occurrence; every subtype
here contains one underscore, so a global replace coincides. -/
def generateIntentDescription (type : IntentType) (subtype : Option String) : String :=
  let descriptions :=
    match type with
    | .search => "Search for geographic information"
    | .compare => "Compare geographic features or areas"
    | .analyze => "Analyze geographic data or patterns"
    | .describe => "Describe geographic features or locations"
    | .find_nearby => "Find nearby geographic features"
    | .route => "Find routes or directions"
    | .change_detection => "Detect changes over time"
  match subtype with
  | some st => descriptions ++ " (" ++ st.replace "_" " " ++ ")"
  | none => descriptions

/-- Embedding of `extractIntent` (called on the lowercased query):
keyword-count scoring with strict improvement, so enumeration order breaks
ties and `search` with score 0 is the default. -/
def extractIntent (queryText : String) : QueryIntent :=
  let score : List String → ℕ := fun keywords =>
    keywords.foldl (fun sum keyword => sum + (if strIncludes queryText keyword then 1 else 0)) 0
  let best := INTENT_KEYWORDS.foldl
    (fun best p => let sc := score p.2; if best.2 < sc then (p.1, sc) else best)
    (IntentType.search, 0)
  let subtype : Option String :=
    if best.1 = IntentType.search then
      if strIncludes queryText "satellite" || strIncludes queryText "imagery" then
        some "satellite_analysis"
      else if strIncludes queryText "feature" || strIncludes queryText "geographic" then
        some "geographic_features"
      else none
    else none
  { type := best.1, subtype := subtype,
    description := generateIntentDescription best.1 subtype }

/-- Embedding of `normalizeUnit`. -/
def normalizeUnit (unit : String) : DistanceUnit :=
  let normalized := jsToLower unit
  if strIncludes normalized "mile" then .miles
  else if strIncludes normalized "meter" || normalized = "m" then .meters
  else .km

/-- Embedding of `extractEntities`: location patterns (entities kept when
the captured text trims to more than 2 characters), in-range coordinate
pairs, feature types, and distance measurements, in source order. -/
def extractEntities (queryText : String) : List ExtractedEntity :=
  let s := queryText.data
  let len := s.length
  let locMatches :=
    scanAll (locPattern1MatchAt s) len ++ scanAll (locPattern2MatchAt s) len ++
      scanAll (locPattern3MatchAt s) len
  let locEntities := (locMatches.filter (fun m => 2 < (trimChars m.capture).length)).map
    (fun m =>
      { text := chStr (trimChars m.capture), type := .location,
        value := .str (chStr (trimChars m.capture)), confidence := 0.8,
        position := (m.start, m.stop) })
  let coordEntities := ((scanAll (coordMatchAt s) len).map
    (fun m => (m, jsParseFloat m.latChars, jsParseFloat m.lonChars))).filterMap
    (fun t =>
      if -90 ≤ t.2.1 ∧ t.2.1 ≤ 90 ∧ -180 ≤ t.2.2 ∧ t.2.2 ≤ 180 then
        some { text := chStr t.1.text, type := EntityType.location,
               value := .coords t.2.1 t.2.2, confidence := 0.95,
               position := (t.1.start, t.1.stop) }
      else none)
  let ftEntities := FEATURE_TYPES.flatMap (fun featureType =>
    (scanAll (ftMatchAt featureType.data s) len).map (fun m =>
      { text := chStr m.capture, type := .feature_type, value := .str featureType,
        confidence := 0.9, position := (m.start, m.stop) }))
  let measEntities := (scanAll (distP1MatchAt s) len ++ scanAll (distP2MatchAt s) len).map
    (fun m =>
      { text := chStr m.text, type := .measurement,
        value := .dist (jsParseFloat m.numChars) (normalizeUnit (chStr m.unitText)),
        confidence := 0.95, position := (m.start, m.stop) })
  locEntities ++ coordEntities ++ ftEntities ++ measEntities

def getDist (v : EntityValue) : Option ℚ :=
  match v with
  | .dist d _ => some d
  | _ => none

def getUnit (v : EntityValue) : Option DistanceUnit :=
  match v with
  | .dist _ u => some u
  | _ => none

/-- Embedding of `extractSpatialConstraints` (receives the original-case
query text; the `"nearby"/"around"/"near"` substring checks are
case-sensitive).  A `.dist`-valued location entity cannot occur; its
branches carry `none` parameters mirroring the `undefined` the source
would produce. -/
def extractSpatialConstraints (queryText : String) (entities : List ExtractedEntity) :
    List SpatialConstraint :=
  let locationEntities := entities.filter (fun e => decide (e.type = EntityType.location))
  let measurementEntities := entities.filter (fun e => decide (e.type = EntityType.measurement))
  let fromLocations := locationEntities.flatMap (fun locationEntity =>
    match locationEntity.value with
    | .coords lat lon =>
      match measurementEntities.find?
        (fun m => decide (|(m.position.1 : ℤ) - (locationEntity.position.2 : ℤ)| < 50)) with
      | some m =>
        [{ type := .radius, geometry := (lat, lon),
           parameters := some { radius := getDist m.value, unit := getUnit m.value,
                                locationName := none } }]
      | none => [{ type := .point, geometry := (lat, lon), parameters := none }]
    | .str name =>
      [{ type := .within, geometry := (0, 0),
         parameters := some { radius := none, unit := none, locationName := some name } }]
    | .dist _ _ =>
      [{ type := .within, geometry := (0, 0),
         parameters := some { radius := none, unit := none, locationName := none } }])
  let nearbyConstraints :=
    if strIncludes queryText "nearby" || strIncludes queryText "around" ||
        strIncludes queryText "near" then
      let defaultRadius : Option ℚ :=
        match measurementEntities with
        | m :: _ => getDist m.value
        | [] => some 10
      match locationEntities with
      | location :: _ =>
        match location.value with
        | .coords lat lon =>
          [{ type := .radius, geometry := (lat, lon),
             parameters := some { radius := defaultRadius, unit := some .km,
                                  locationName := none } }]
        | _ => []
      | [] => []
    else []
  fromLocations ++ nearbyConstraints

/-- Embedding of `extractTemporalConstraints` (on the lowercased query):
only `TIME_PATTERNS[0]` matches contribute; the calendar arithmetic is the
host `Date` capability `D`. -/
def extractTemporalConstraints (D : DateOps) (queryText : String) :
    List TemporalConstraint :=
  (scanAll (timeP1MatchAt queryText.data) queryText.data.length).map (fun m =>
    { type := "between"
      startDate :=
        match m.unit with
        | .days => D.shiftDays m.amount
        | .weeks => D.shiftDays (m.amount * 7)
        | .months => D.shiftMonths m.amount
        | .years => D.shiftYears m.amount
      endDate := D.todayISO })

/-- Embedding of `extractFilters` (on the lowercased query). -/
def extractFilters (queryText : String) : List QueryFilter :=
  let s := queryText.data
  let typeFilters :=
    if strIncludes queryText "type:" || strIncludes queryText "category:" then
      match findFirstMatch (typeFilterMatchAt s) s.length with
      | some cap => [{ field := "type", operator := "equals", value := .str (chStr cap) }]
      | none => []
    else []
  let confFilters :=
    if strIncludes queryText "confidence" || strIncludes queryText "accuracy" then
      match findFirstMatch (confFilterMatchAt s) s.length with
      | some v => [{ field := "confidence", operator := "greater_than", value := .num v }]
      | none => []
    else []
  typeFilters ++ confFilters

/-- JS `Math.min` on two numbers (kept as an explicit conditional so the
kernel can evaluate it). -/
def mathMin (a b : ℚ) : ℚ := if a ≤ b then a else b

/-- Embedding of `calculateParsingConfidence`. -/
def calculateParsingConfidence (intent : QueryIntent) (entities : List ExtractedEntity)
    (spatialConstraints : List SpatialConstraint) : ℚ :=
  let base : ℚ := 0.5
  let intentBonus : ℚ :=
    if intent.type ≠ IntentType.search ∨ intent.subtype.isSome then 0.2 else 0
  let entityBonus : ℚ := mathMin ((entities.length : ℚ) * 0.1) 0.3
  let spatialBonus : ℚ := mathMin ((spatialConstraints.length : ℚ) * 0.15) 0.3
  let avgEntityConfidence : ℚ :=
    if 0 < entities.length then
      (entities.foldl (fun sum e => sum + e.confidence) 0) / (entities.length : ℚ)
    else 0
  mathMin (base + intentBonus + entityBonus + spatialBonus + avgEntityConfidence * 0.2) 1

/-- Embedding of `parseQuery`. -/
def parseQuery (D : DateOps) (queryText : String) : ParsedQuery :=
  let normalizedQuery := jsTrim (jsToLower queryText)
  let intent := extractIntent normalizedQuery
  let entities := extractEntities queryText
  let spatialConstraints := extractSpatialConstraints queryText entities
  let temporalConstraints := extractTemporalConstraints D normalizedQuery
  let filters := extractFilters normalizedQuery
  let confidence := calculateParsingConfidence intent entities spatialConstraints
  { intent := intent, entities := entities, spatialConstraints := spatialConstraints,
    temporalConstraints := temporalConstraints, filters := filters,
    confidence := confidence }

/-! Nonnegativity of the extracted entities' pattern confidences. -/

theorem extractEntities_conf_nonneg (queryText : String) :
    ∀ e ∈ extractEntities queryText, 0 ≤ e.confidence := by
  intro e he
  simp only [extractEntities, List.mem_append] at he
  rcases he with ((h | h) | h) | h
  · obtain ⟨m, _, rfl⟩ := List.mem_map.1 h
    norm_num
  · obtain ⟨t, _, hsome⟩ := List.mem_filterMap.1 h
    by_cases hc : -90 ≤ t.2.1 ∧ t.2.1 ≤ 90 ∧ -180 ≤ t.2.2 ∧ t.2.2 ≤ 180
    · rw [if_pos hc] at hsome
      injection hsome with hsome
      rw [← hsome]
      norm_num
    · rw [if_neg hc] at hsome
      cases hsome
  · obtain ⟨ft, _, hmem⟩ := List.mem_flatMap.1 h
    obtain ⟨m, _, rfl⟩ := List.mem_map.1 hmem
    norm_num
  · obtain ⟨m, _, rfl⟩ := List.mem_map.1 h
    norm_num

theorem foldl_conf_nonneg (l : List ExtractedEntity) (h : ∀ e ∈ l, 0 ≤ e.confidence) :
    ∀ init : ℚ, 0 ≤ init → 0 ≤ l.foldl (fun sum e => sum + e.confidence) init := by
  induction l with
  | nil => intro init h0; simpa using h0
  | cons e rest ih =>
    intro init h0
    rw [List.foldl_cons]
    exact ih (fun x hx => h x (List.mem_cons_of_mem e hx)) (init + e.confidence)
      (by have := h e (List.mem_cons_self e rest); linarith)

theorem mathMin_nonneg {a b : ℚ} (ha : 0 ≤ a) (hb : 0 ≤ b) : 0 ≤ mathMin a b := by
  unfold mathMin
  split_ifs <;> assumption

theorem mathMin_le_right (a b : ℚ) : mathMin a b ≤ b := by
  unfold mathMin
  split_ifs with h
  · exact h
  · exact le_refl b

theorem le_mathMin {a b c : ℚ} (ha : c ≤ a) (hb : c ≤ b) : c ≤ mathMin a b := by
  unfold mathMin
  split_ifs <;> assumption

/-- Confidence of any parse is at least the base 0.5: all bonuses are
nonnegative (the entity-confidence constants are 0.8/0.9/0.95). -/
theorem calculateParsingConfidence_lower (intent : QueryIntent)
    (entities : List ExtractedEntity) (spatialConstraints : List SpatialConstraint)
    (hconf : ∀ e ∈ entities, 0 ≤ e.confidence) :
    1 / 2 ≤ calculateParsingConfidence intent entities spatialConstraints := by
  simp only [calculateParsingConfidence]
  have hib : (0 : ℚ) ≤
      (if intent.type ≠ IntentType.search ∨ intent.subtype.isSome then (0.2 : ℚ) else 0) := by
    split_ifs <;> norm_num
  have heb : (0 : ℚ) ≤ mathMin ((entities.length : ℚ) * 0.1) 0.3 := by
    apply mathMin_nonneg
    · positivity
    · norm_num
  have hsb : (0 : ℚ) ≤ mathMin ((spatialConstraints.length : ℚ) * 0.15) 0.3 := by
    apply mathMin_nonneg
    · positivity
    · norm_num
  have hav : (0 : ℚ) ≤
      (if 0 < entities.length then
        (entities.foldl (fun sum e => sum + e.confidence) 0) / (entities.length : ℚ)
      else 0) := by
    split_ifs with hlen
    · apply div_nonneg
      · exact foldl_conf_nonneg entities hconf 0 le_rfl
      · positivity
    · exact le_rfl
  apply le_mathMin
  · linarith [mul_nonneg hav (by norm_num : (0 : ℚ) ≤ 0.2)]
  · norm_num

theorem calculateParsingConfidence_upper (intent : QueryIntent)
    (entities : List ExtractedEntity) (spatialConstraints : List SpatialConstraint) :
    calculateParsingConfidence intent entities spatialConstraints ≤ 1 := by
  simp only [calculateParsingConfidence]
  exact mathMin_le_right _ _

end GeographicQueryParser

/-! Embedding of the query engine facade (src/lib/query/query-engine.ts)
and of the `QueryResult` shape shared with the executor.  Host-clock
timing is not modeled (the gate path reports `executionTime = 0` as the
source does); `toFixed(2)` inside the error message is the host formatting
parameter `fmt`.  Nothing in the modeled path throws, so the surrounding
`try/catch` is not represented. -/

structure QueryResultMetadata where
  executionTime : ℚ
  stepsExecuted : ℕ
  cacheHit : Bool
  confidence : ℚ
deriving DecidableEq

structure QueryResult (α : Type) where
  success : Bool
  data : Option α
  metadata : QueryResultMetadata
  error : Option String

namespace GeographicQueryEngine

structure QueryEngineOptions where
  enableCaching : Bool
  maxCacheSize : ℕ
  defaultSpatialRadius : ℚ
  confidenceThreshold : ℚ

/-- Constructor defaults of `GeographicQueryEngine`. -/
def defaultOptions : QueryEngineOptions :=
  { enableCaching := true, maxCacheSize := 100, defaultSpatialRadius := 50,
    confidenceThreshold := 0.5 }

open GeographicQueryParser in
/-- Embedding of `processQuery`: parse, gate on confidence, else delegate
to the executor (abstracted as `exec`). -/
def processQuery {α : Type} (exec : ParsedQuery → String → QueryResult α)
    (options : QueryEngineOptions) (fmt : ℚ → String) (D : DateOps)
    (queryText : String) : QueryResult α :=
  let parsedQuery := parseQuery D queryText
  if parsedQuery.confidence < options.confidenceThreshold then
    { success := false, data := none,
      metadata := { executionTime := 0, stepsExecuted := 0, cacheHit := false,
                    confidence := parsedQuery.confidence },
      error := some ("Query parsing confidence (" ++ fmt parsedQuery.confidence ++
        ") is below threshold. Please rephrase your query.") }
  else exec parsedQuery queryText

open GeographicQueryParser in
/-- C6: whenever the parse confidence is strictly below the configured
threshold, `processQuery` skips execution (the result does not depend on
the executor) and returns `success = false`, null data, and the numeric
confidence (which is ≤ the threshold) in the result metadata. -/
theorem c6_confidence_gate {α : Type} (exec : ParsedQuery → String → QueryResult α)
    (options : QueryEngineOptions) (fmt : ℚ → String) (D : DateOps) (queryText : String)
    (h : (parseQuery D queryText).confidence < options.confidenceThreshold) :
    (processQuery exec options fmt D queryText).success = false ∧
    (processQuery exec options fmt D queryText).data = none ∧
    (processQuery exec options fmt D queryText).metadata.confidence =
      (parseQuery D queryText).confidence ∧
    (parseQuery D queryText).confidence ≤ options.confidenceThreshold ∧
    ∀ exec2 : ParsedQuery → String → QueryResult α,
      processQuery exec2 options fmt D queryText = processQuery exec options fmt D queryText := by
  refine ⟨?_, ?_, ?_, le_of_lt h, fun exec2 => ?_⟩ <;>
    simp only [processQuery, if_pos h]

open GeographicQueryParser in
/-- C7: every parse confidence lies in `[0.5, 1]` (base 0.5 plus
nonnegative bonuses, capped at 1), so under the default threshold of
exactly 0.5 the strict `confidence < threshold` gate never fires and
`processQuery` always delegates to the executor. -/
theorem c7_confidence_range_gate_never_rejects (D : DateOps) (queryText : String) :
    1 / 2 ≤ (parseQuery D queryText).confidence ∧
    (parseQuery D queryText).confidence ≤ 1 ∧
    ∀ (α : Type) (exec : ParsedQuery → String → QueryResult α) (fmt : ℚ → String),
      processQuery exec defaultOptions fmt D queryText =
        exec (parseQuery D queryText) queryText := by
  have hlo : 1 / 2 ≤ (parseQuery D queryText).confidence := by
    simp only [parseQuery]
    exact calculateParsingConfidence_lower _ _ _ (extractEntities_conf_nonneg queryText)
  have hhi : (parseQuery D queryText).confidence ≤ 1 := by
    simp only [parseQuery]
    exact calculateParsingConfidence_upper _ _ _
  refine ⟨hlo, hhi, ?_⟩
  intro α exec fmt
  have hnot : ¬((parseQuery D queryText).confidence < defaultOptions.confidenceThreshold) := by
    rw [not_lt]
    have : defaultOptions.confidenceThreshold = 1 / 2 := by norm_num [defaultOptions]
    rw [this]
    exact hlo
  simp only [processQuery, if_neg hnot]

end GeographicQueryEngine

namespace GeographicQueryParser

/-! Claims C5 and the C6 witness: concrete parses. -/

/-- Trivial host-date capability for concrete parses (the temporal
extractor finds no time expressions in these inputs). -/
def trivDate : DateOps :=
  { todayISO := "2024-01-01", shiftDays := fun _ => "2024-01-01",
    shiftMonths := fun _ => "2024-01-01", shiftYears := fun _ => "2024-01-01" }

def c5Text : String := "Find national parks within 50km of Los Angeles"

set_option maxRecDepth 40000 in
/-- C5 counterexample: parsing the scenario query yields **no** spatial
constraints at all — "Los Angeles" follows "of", which is not one of the
recognized prepositions (in/at/near/around/within), so no location entity
and hence no radius constraint is produced.  The claim's required
`radius`-type constraint with `parameters.radius = 50` does not exist. -/
theorem c5_counterexample :
    (parseQuery trivDate c5Text).spatialConstraints = [] ∧
    ¬∃ c ∈ (parseQuery trivDate c5Text).spatialConstraints,
      c.type = ConstraintType.radius := by
  have h : (parseQuery trivDate c5Text).spatialConstraints = [] := by decide
  refine ⟨h, ?_⟩
  rw [h]
  simp

theorem c5_parse_50 : jsParseFloat "50".data = 50 := by
  have hip : ("50".data.takeWhile (fun c => c ≠ '.')) = "50".data := by decide
  have hfp : (("50".data.dropWhile (fun c => c ≠ '.')).drop 1) = ([] : List Char) := by decide
  have hjp : jsParseFloat "50".data = parseDecChars "50".data := rfl
  rw [hjp]
  simp only [parseDecChars]
  rw [hip, hfp]
  have hd : digitsToNat "50".data = 50 := by decide
  rw [hd]
  norm_num [digitsToNat]

set_option maxRecDepth 40000 in
/-- C5 amended: the scenario parse yields intent `search`, a feature-type
entity `park`, and a measurement entity `{50, km}`, but **no** spatial
constraint (in particular no radius constraint): the named location after
"of" is not recognized. -/
theorem c5_scenario_parse_amended (D : DateOps) :
    (parseQuery D c5Text).intent.type = IntentType.search ∧
    (∃ e ∈ (parseQuery D c5Text).entities, e.type = EntityType.feature_type ∧
      e.value = .str "park") ∧
    (∃ e ∈ (parseQuery D c5Text).entities, e.type = EntityType.measurement ∧
      e.value = .dist 50 DistanceUnit.km) ∧
    (parseQuery D c5Text).spatialConstraints = [] := by
  refine ⟨?_, ?_, ?_, ?_⟩
  · simp only [parseQuery]
    decide
  · simp only [parseQuery]
    decide
  · simp only [parseQuery]
    have hm1 : scanAll (distP1MatchAt c5Text.data) c5Text.data.length =
        [⟨27, 31, "50km".data, "50".data, "km".data⟩] := by decide
    have hm2 : scanAll (distP2MatchAt c5Text.data) c5Text.data.length =
        [⟨20, 31, "within 50km".data, "50".data, "km".data⟩] := by decide
    have hkm : normalizeUnit (chStr "km".data) = DistanceUnit.km := by decide
    have hIn : ({ text := chStr "50km".data, type := EntityType.measurement,
                  value := .dist (jsParseFloat "50".data) (normalizeUnit (chStr "km".data)),
                  confidence := 0.95, position := (27, 31) } : ExtractedEntity)
        ∈ extractEntities c5Text := by
      simp only [extractEntities]
      rw [hm1, hm2]
      simp
    refine ⟨_, hIn, rfl, ?_⟩
    rw [c5_parse_50, hkm]
  · simp only [parseQuery]
    decide

set_option maxRecDepth 40000 in
/-- C5 witness: the amended parse theorem applied at a concrete date
capability. -/
theorem c5_scenario_parse_amended_witness :
    (parseQuery trivDate c5Text).intent.type = IntentType.search ∧
    (∃ e ∈ (parseQuery trivDate c5Text).entities, e.type = EntityType.feature_type ∧
      e.value = .str "park") ∧
    (∃ e ∈ (parseQuery trivDate c5Text).entities, e.type = EntityType.measurement ∧
      e.value = .dist 50 DistanceUnit.km) ∧
    (parseQuery trivDate c5Text).spatialConstraints = [] :=
  c5_scenario_parse_amended trivDate

set_option maxRecDepth 10000 in
/-- Confidence of the 2-character gibberish parse: no intent keyword, no
entities, no constraints — exactly the base confidence 0.5. -/
theorem c6w_parse_confidence : (parseQuery trivDate "xq").confidence = 1 / 2 := by
  have hint : extractIntent (jsTrim (jsToLower "xq")) =
      ⟨.search, none, "Search for geographic information"⟩ := by decide
  have hent : extractEntities "xq" = [] := by decide
  simp only [parseQuery, hint, hent]
  have hsc : extractSpatialConstraints "xq" ([] : List ExtractedEntity) = [] := by decide
  rw [hsc]
  simp only [calculateParsingConfidence, hint]
  norm_num [mathMin]

end GeographicQueryParser

namespace GeographicQueryEngine

open GeographicQueryParser

def c6wOptions : QueryEngineOptions :=
  { defaultOptions with confidenceThreshold := 0.6 }

def c6wExec : ParsedQuery → String → QueryResult ℕ :=
  fun _ _ => ⟨true, some 0, ⟨0, 0, false, 0⟩, none⟩

/-- C6 witness: with the threshold configured to 0.6, the 2-character
gibberish query `"xq"` parses with confidence 0.5 < 0.6 and the gate
returns `success = false` carrying that confidence. -/
theorem c6_confidence_gate_witness :
    (parseQuery trivDate "xq").confidence = 1 / 2 ∧
    (1 : ℚ) / 2 < c6wOptions.confidenceThreshold ∧
    (processQuery c6wExec c6wOptions (fun _ => "") trivDate "xq").success = false ∧
    (processQuery c6wExec c6wOptions (fun _ => "") trivDate "xq").metadata.confidence
      = 1 / 2 := by
  have hconf := c6w_parse_confidence
  have hlt : (parseQuery trivDate "xq").confidence < c6wOptions.confidenceThreshold := by
    rw [hconf]
    norm_num [c6wOptions, defaultOptions]
  have hthm := c6_confidence_gate c6wExec c6wOptions (fun _ => "") trivDate "xq" hlt
  refine ⟨hconf, ?_, hthm.1, ?_⟩
  · norm_num [c6wOptions, defaultOptions]
  · rw [hthm.2.2.1, hconf]

end GeographicQueryEngine

/-! Embedding of the query executor's caching layer
(src/lib/query/executor.ts).  The cache key `btoa(JSON.stringify(...))` is
an injective encoding of its field tuple, modeled as the tuple itself.
Plan construction and step execution (`createExecutionPlan` /
`executePlan`, which call into the RAG engine and spatial index) are
abstracted as the oracle `exec`; a throw inside them is an `Except.error`
and is not cached, exactly as in the source's `try/catch`.  A call is
modeled as atomic at instant `now` (so the `Date.now() - startTime`
execution time is 0). -/

namespace QueryExecutor

open GeographicQueryParser

structure CacheKeyData where
  intent : IntentType
  entities : List String
  spatial : ℕ
  temporal : ℕ
  text : String
deriving DecidableEq

def CACHE_TTL : ℤ := 5 * 60 * 1000

/-- Embedding of `generateCacheKey`: intent type, sorted entity texts,
constraint counts, and the normalized original text. -/
def generateCacheKey (parsedQuery : ParsedQuery) (originalText : String) : CacheKeyData :=
  { intent := parsedQuery.intent.type
    entities := (parsedQuery.entities.map (fun e => e.text)).mergeSort
      (fun a b => decide (a ≤ b))
    spatial := parsedQuery.spatialConstraints.length
    temporal := parsedQuery.temporalConstraints.length
    text := jsTrim (jsToLower originalText) }

/-- Embedding of `checkCache`: a hit requires `now - timestamp < TTL`. -/
def checkCache {α : Type} (cache : List (CacheKeyData × QueryResult α × ℤ))
    (cacheKey : CacheKeyData) (now : ℤ) : Option (QueryResult α) :=
  match aget cache cacheKey with
  | some entry => if now - entry.2 < CACHE_TTL then some entry.1 else none
  | none => none

/-- Embedding of `cacheResult`: store under the key, then evict the
oldest (first-inserted) entry if the size exceeds 100. -/
def cacheResult {α : Type} (cache : List (CacheKeyData × QueryResult α × ℤ))
    (cacheKey : CacheKeyData) (result : QueryResult α) (now : ℤ) :
    List (CacheKeyData × QueryResult α × ℤ) :=
  let updated := aset cache cacheKey (result, now)
  if 100 < updated.length then updated.drop 1 else updated

/-- Embedding of `executeQuery`: cache lookup, execution via the oracle,
caching of the raw result, and the metadata overrides of each return
path. -/
def executeQuery {α : Type} (exec : ParsedQuery → String → Except String (QueryResult α))
    (cache : List (CacheKeyData × QueryResult α × ℤ)) (parsedQuery : ParsedQuery)
    (originalText : String) (now : ℤ) :
    QueryResult α × List (CacheKeyData × QueryResult α × ℤ) :=
  let cacheKey := generateCacheKey parsedQuery originalText
  match checkCache cache cacheKey now with
  | some cached =>
    ({ cached with metadata := { cached.metadata with cacheHit := true } }, cache)
  | none =>
    match exec parsedQuery originalText with
    | .ok result =>
      ({ result with metadata :=
          { result.metadata with executionTime := 0, cacheHit := false } },
        cacheResult cache cacheKey result now)
    | .error e =>
      ({ success := false, data := none,
         metadata := { executionTime := 0, stepsExecuted := 0, cacheHit := false,
                       confidence := 0 },
         error := some e }, cache)

theorem aget_none_tail {κ β : Type} [DecidableEq κ] (m : List (κ × β)) (k : κ)
    (h : aget m k = none) : aget (m.drop 1) k = none := by
  cases m with
  | nil => rfl
  | cons hd t =>
    rw [aget] at h
    by_cases he : hd.1 = k
    · rw [if_pos he] at h
      cases h
    · rw [if_neg he] at h
      simpa using h

theorem aget_aset_fresh {κ β : Type} [DecidableEq κ] (m : List (κ × β)) (k : κ) (v : β)
    (h : aget m k = none) : aset m k v = m ++ [(k, v)] := by
  induction m with
  | nil => rfl
  | cons hd t ih =>
    rw [aget] at h
    by_cases he : hd.1 = k
    · rw [if_pos he] at h
      cases h
    · rw [if_neg he] at h
      cases hd with
      | mk a b =>
        simp only at he
        simp [aset, he, ih h]

theorem aget_append_singleton {κ β : Type} [DecidableEq κ] (m : List (κ × β)) (k : κ)
    (v : β) (h : aget m k = none) : aget (m ++ [(k, v)]) k = some v := by
  induction m with
  | nil => simp [aget]
  | cons hd t ih =>
    rw [aget] at h
    by_cases he : hd.1 = k
    · rw [if_pos he] at h
      cases h
    · rw [if_neg he] at h
      cases hd with
      | mk a b =>
        simp only at he
        simp [aget, he, ih h]

/-- A freshly cached entry is found by a subsequent lookup, even across
the size-bound eviction (the evicted entry is the oldest, not the new
one). -/
theorem aget_cacheResult_self {α : Type} (cache : List (CacheKeyData × QueryResult α × ℤ))
    (cacheKey : CacheKeyData) (result : QueryResult α) (now : ℤ)
    (h : aget cache cacheKey = none) :
    aget (cacheResult cache cacheKey result now) cacheKey = some (result, now) := by
  rw [cacheResult, aget_aset_fresh cache cacheKey (result, now) h]
  by_cases hlen : 100 < (cache ++ [(cacheKey, (result, now))]).length
  · rw [if_pos hlen]
    cases cache with
    | nil => simp at hlen
    | cons hd t =>
      have ht : aget t cacheKey = none := by
        have := aget_none_tail (hd :: t) cacheKey h
        simpa using this
      simpa using aget_append_singleton t cacheKey (result, now) ht
  · rw [if_neg hlen]
    exact aget_append_singleton cache cacheKey (result, now) h

/-- The cache key of a parse depends only on the query text, not on the
host date capability: only the temporal constraints' date strings vary
with it, and the key uses just their count. -/
theorem generateCacheKey_date_independent (D1 D2 : DateOps) (text originalText : String) :
    generateCacheKey (parseQuery D1 text) originalText =
      generateCacheKey (parseQuery D2 text) originalText := by
  simp only [generateCacheKey, parseQuery, extractTemporalConstraints, List.length_map]

/-- C8: after a first run that actually executes (cache miss) and
succeeds, re-running with identical text within the 5-minute TTL hits the
cache: the second result carries `cacheHit = true` and data identical to
the first run, regardless of the executor oracle or the host date
capability used by the second parse. -/
theorem c8_cache_hit_within_ttl {α : Type} (D1 D2 : DateOps)
    (exec1 exec2 : ParsedQuery → String → Except String (QueryResult α))
    (cache : List (CacheKeyData × QueryResult α × ℤ)) (text : String) (t0 t1 : ℤ)
    (r0 : QueryResult α)
    (hfresh : aget cache (generateCacheKey (parseQuery D1 text) text) = none)
    (hexec : exec1 (parseQuery D1 text) text = .ok r0)
    (hsucc : r0.success = true)
    (h0 : t0 ≤ t1) (h1 : t1 - t0 < CACHE_TTL) :
    (executeQuery exec2 (executeQuery exec1 cache (parseQuery D1 text) text t0).2
        (parseQuery D2 text) text t1).1.metadata.cacheHit = true ∧
    (executeQuery exec2 (executeQuery exec1 cache (parseQuery D1 text) text t0).2
        (parseQuery D2 text) text t1).1.data =
      (executeQuery exec1 cache (parseQuery D1 text) text t0).1.data ∧
    (executeQuery exec1 cache (parseQuery D1 text) text t0).1.success = true := by
  have hcc0 : checkCache cache (generateCacheKey (parseQuery D1 text) text) t0 = none := by
    rw [checkCache, hfresh]
  have hfirst : executeQuery exec1 cache (parseQuery D1 text) text t0 =
      ({ r0 with metadata :=
          { r0.metadata with executionTime := 0, cacheHit := false } },
        cacheResult cache (generateCacheKey (parseQuery D1 text) text) r0 t0) := by
    simp only [executeQuery, hcc0, hexec]
  have hget1 : aget (cacheResult cache (generateCacheKey (parseQuery D1 text) text) r0 t0)
      (generateCacheKey (parseQuery D1 text) text) = some (r0, t0) :=
    aget_cacheResult_self cache _ r0 t0 hfresh
  have hcc1 : checkCache (cacheResult cache (generateCacheKey (parseQuery D1 text) text) r0 t0)
      (generateCacheKey (parseQuery D2 text) text) t1 = some r0 := by
    rw [generateCacheKey_date_independent D2 D1 text text, checkCache, hget1]
    exact if_pos h1
  have hsecond : executeQuery exec2
      (cacheResult cache (generateCacheKey (parseQuery D1 text) text) r0 t0)
      (parseQuery D2 text) text t1 =
      ({ r0 with metadata := { r0.metadata with cacheHit := true } },
        cacheResult cache (generateCacheKey (parseQuery D1 text) text) r0 t0) := by
    simp only [executeQuery, hcc1]
  rw [hfirst, hsecond]
  exact ⟨rfl, rfl, hsucc⟩

def c8wResult : QueryResult ℕ :=
  { success := true, data := some 7,
    metadata := { executionTime := 0, stepsExecuted := 1, cacheHit := false,
                  confidence := 1 },
    error := none }

def c8wExec : ParsedQuery → String → Except String (QueryResult ℕ) :=
  fun _ _ => .ok c8wResult

/-- C8 witness: the caching theorem applied at an empty cache, a constant
executor oracle, and call instants 0 and 1000 ms. -/
theorem c8_cache_hit_within_ttl_witness :
    (executeQuery c8wExec
        (executeQuery c8wExec [] (parseQuery trivDate "find parks") "find parks" 0).2
        (parseQuery trivDate "find parks") "find parks" 1000).1.metadata.cacheHit = true ∧
    (executeQuery c8wExec
        (executeQuery c8wExec [] (parseQuery trivDate "find parks") "find parks" 0).2
        (parseQuery trivDate "find parks") "find parks" 1000).1.data =
      (executeQuery c8wExec [] (parseQuery trivDate "find parks") "find parks" 0).1.data ∧
    (executeQuery c8wExec [] (parseQuery trivDate "find parks") "find parks" 0).1.success
      = true :=
  c8_cache_hit_within_ttl trivDate trivDate c8wExec c8wExec [] "find parks" 0 1000
    c8wResult rfl rfl rfl (by decide) (by decide)

end QueryExecutor

end GeoRAG
